import Mathlib

/-!
# Crocoddyl: benchmark driver, shooting problem and FDDP bookkeeping

A shallow embedding of `benchmark/arm_manipulation_optctrl.cpp` (the `main`
function that builds an initial guess, warm-starts it with `quasiStatic`, and
times `SolverFDDP::solve`, `ShootingProblem::calc` and
`ShootingProblem::calcDiff`).

`main` is embedded as a function from its external collaborators (the action
model, the solver and the shooting problem, whose sources live elsewhere) to
the final machine state, which carries the ordered list of calls `main` made
on those collaborators.  A C++ exception is embedded as the `thrown` field of
the machine state: `main` has no `try`/`catch`, so once `thrown` is set every
later statement is skipped.

Scalars (`double`) are idealised as rationals; wall-clock timing and the
printing of durations are not part of the embedding.

The file also embeds the unit-test factory of differential action models
(`unittest/factory/diff_action.cpp`), whose objects are recorded as the
constructor calls that make them, and the constructors that the Python binding
of the contact CoP position residual exposes
(`bindings/python/crocoddyl/multibody/residuals/contact-cop-position.cpp`).
-/

namespace Crocoddyl

/-! ## Vectors -/

/-- Dense vector `Eigen::VectorXd`, entries idealised as rationals. -/
abbrev VectorXd := List ℚ

/-- The vector `Eigen::VectorXd::Zero(n)`. -/
def VectorXd.Zero (n : Nat) : VectorXd := List.replicate n 0

/-- A C++ exception, identified by its message. -/
structure Exception where
  what : String
deriving DecidableEq, Repr

/-! ## The benchmark `main` -/

/-- References to the two action models built by `build_arm_action_models`. -/
inductive ModelRef where
  | runningModel
  | terminalModel
deriving DecidableEq, Repr

/-- Calls that `main` makes on its collaborators, with their arguments.

* `ShootingProblem x0 runningModels terminalModel`: the constructor call of
  lines 43-45.
* `quasiStatic model data u uval x`: `model->quasiStatic(data, us[u], x)` where
  `model` is the index into `problem->get_runningModels()`, `data` the index
  into `problem->get_runningDatas()`, `u` the index of the control passed as
  output argument and `uval` its value when the call is made.
* `SolverFDDP`: construction of the solver (line 58).
* `setCallbacks`: line 62.
* `solve xs us maxiter is_feasible reg_init`: line 69.
* `calc xs us`, `calcDiff xs us`: lines 82 and 95. -/
inductive Call where
  | ShootingProblem (x0 : VectorXd) (runningModels : List ModelRef)
      (terminal : ModelRef)
  | quasiStatic (model data u : Nat) (uval x : VectorXd)
  | SolverFDDP
  | setCallbacks
  | solve (xs us : List VectorXd) (maxiter : Nat) (is_feasible : Bool)
      (reg_init : ℚ)
  | calc (xs us : List VectorXd)
  | calcDiff (xs us : List VectorXd)
deriving DecidableEq, Repr

/-- External collaborators of `main`.

* `nu` is `runningModel->get_nu()`.
* `x0` is the initial state assembled in lines 34-37 (a reference
  configuration followed by random velocities).
* `quasiStatic i u x` is the effect of the `i`-th `quasiStatic` call on the
  control it is given: the new value of the control, or the exception thrown.
* `solveThrows`, `calcThrows`, `calcDiffThrows`: the exception thrown by the
  `i`-th timed call of `solve`, `calc`, `calcDiff`, if any.  These functions
  take `xs` and `us` by constant reference. -/
structure Collaborators where
  nu : Nat
  x0 : VectorXd
  quasiStatic : Nat → VectorXd → VectorXd → Except Exception VectorXd
  solveThrows : Nat → List VectorXd → List VectorXd → Nat → Bool → ℚ → Option Exception
  calcThrows : Nat → List VectorXd → List VectorXd → Option Exception
  calcDiffThrows : Nat → List VectorXd → List VectorXd → Option Exception

/-- Machine state of `main`: the local variables `xs` and `us`, the calls made
so far (oldest first) and the exception in flight, if any. -/
structure MainState where
  xs : List VectorXd
  us : List VectorXd
  calls : List Call
  thrown : Option Exception

/-- The loop `for (unsigned int i = lo; i < lo + n; ++i) body`: the first
argument counts the iterations that remain, the second is `i`.  An exception
in flight ends the loop. -/
def forLoop (body : Nat → MainState → MainState) : Nat → Nat → MainState → MainState
  | 0, _, s => s
  | n + 1, i, s =>
    match s.thrown with
    | some _ => s
    | none => forLoop body n (i + 1) (body i s)

/-- Body of the loop of lines 49-55:
`model = problem->get_runningModels()[i]; data = problem->get_runningDatas()[i];
model->quasiStatic(data, us[i], x0);`.  The control `us[i]` is passed by
reference and overwritten by the call; when the call throws, `main` never
reads `us` again. -/
def quasiStaticBody (env : Collaborators) (x0 : VectorXd) (i : Nat)
    (s : MainState) : MainState :=
  let u := s.us.getD i []
  let s1 := { s with calls := s.calls ++ [Call.quasiStatic i i i u x0] }
  match env.quasiStatic i u x0 with
  | .ok u1 => { s1 with us := s1.us.set i u1 }
  | .error e => { s1 with thrown := some e }

/-- A statement that calls a collaborator on the current `xs` and `us` (passed
by constant reference): the call is recorded and its exception, if any, is put
in flight. -/
def callStmt (c : List VectorXd → List VectorXd → Call)
    (out : Nat → List VectorXd → List VectorXd → Option Exception)
    (i : Nat) (s : MainState) : MainState :=
  { s with calls := s.calls ++ [c s.xs s.us], thrown := out i s.xs s.us }

/-- A statement outside a loop: skipped when an exception is in flight. -/
def stmt (f : MainState → MainState) (s : MainState) : MainState :=
  match s.thrown with
  | some _ => s
  | none => f s

/-- The constant `CALLBACKS` of line 16. -/
def CALLBACKS : Bool := false

/-- The constructor call of lines 43-45: `N` copies of the running model and
the terminal model. -/
def problemCall (env : Collaborators) (N : Nat) : Call :=
  Call.ShootingProblem env.x0 (List.replicate N ModelRef.runningModel)
    ModelRef.terminalModel

/-- Lines 41-48: the vector of `N` running models (`N` copies of the one
running model), the shooting problem built from it, and the initial guess
`xs(N + 1, x0)`, `us(N, Zero(runningModel->get_nu()))`. -/
def initialGuess (env : Collaborators) (N : Nat) : MainState :=
  { xs := List.replicate (N + 1) env.x0
    us := List.replicate N (VectorXd.Zero env.nu)
    calls := [problemCall env N]
    thrown := none }

/-- The trajectory `(xs, us)` that a call of `solve`, `calc` or `calcDiff` is
given; `none` for the other calls. -/
def Call.trajectory : Call → Option (List VectorXd × List VectorXd)
  | Call.solve xs us _ _ _ => some (xs, us)
  | Call.calc xs us => some (xs, us)
  | Call.calcDiff xs us => some (xs, us)
  | _ => none

/-- Lines 39-97 of `main`, for `N` nodes, `T` trials and `MAXITER` solver
iterations. -/
def mainBody (env : Collaborators) (N T MAXITER : Nat) : MainState :=
  let x0 := env.x0
  -- lines 41-48
  let s0 := initialGuess env N
  -- lines 49-55
  let s1 := forLoop (quasiStaticBody env x0) N 0 s0
  -- lines 58-63
  let s2 := stmt (fun s => { s with calls := s.calls ++ [Call.SolverFDDP] }) s1
  let s3 := stmt (fun s =>
    if CALLBACKS then { s with calls := s.calls ++ [Call.setCallbacks] } else s) s2
  -- lines 67-71
  let s4 := forLoop (callStmt (fun xs us => Call.solve xs us MAXITER false (1 / 10))
    (fun i xs us => env.solveThrows i xs us MAXITER false (1 / 10))) T 0 s3
  -- lines 80-84
  let s5 := forLoop (callStmt Call.calc env.calcThrows) T 0 s4
  -- lines 93-97
  forLoop (callStmt Call.calcDiff env.calcDiffThrows) T 0 s5

/-- Number of trials: `unsigned int T = 5e3; if (argc > 1) T = atoi(argv[1]);`.
The argument is the value `atoi(argv[1])` when `argc > 1`; the conversion of
`int` to `unsigned int` is reduction modulo `2^32`. -/
def trials (atoiArgv1 : Option Int) : Nat :=
  match atoiArgv1 with
  | none => 5000
  | some a => (a % 4294967296).toNat

/-- The function `main` of the benchmark: `N = 100`, `MAXITER = 1`. -/
def main (env : Collaborators) (atoiArgv1 : Option Int) : MainState :=
  mainBody env 100 (trials atoiArgv1) 1

/-! ## Shooting problem -/

/-- Error kinds of the error-handling design. -/
inductive SolverError where
  | DimensionMismatch
  | NumericalIndefiniteness
  | LineSearchExhausted
  | ConvergenceFailure
  | InvalidNumericValue
  | UnsupportedOperation
deriving DecidableEq, Repr

/-- Modelled from the spec: the per-stage action data record (class
`ActionDataAbstract`, not part of the sources at hand): next-state prediction,
scalar stage cost, cost gradient, cost Hessian blocks and dynamics Jacobians
(matrices as lists of rows). -/
structure ActionData where
  xnext : VectorXd
  cost : ℚ
  Lx : VectorXd
  Lu : VectorXd
  Lxx : List VectorXd
  Luu : List VectorXd
  Lxu : List VectorXd
  Fx : List VectorXd
  Fu : List VectorXd
deriving DecidableEq, Repr

/-- Modelled from the spec: the action model contract (class
`ActionModelAbstract`, not part of the sources at hand), reduced to what
`calc` needs: the control dimension, the dynamics and the cost.  The control
is `none` for the terminal stage. -/
structure ActionModel where
  nu : Nat
  next : VectorXd → Option VectorXd → VectorXd
  cost : VectorXd → Option VectorXd → ℚ
  createData : ActionData

/-- Modelled from the spec: `calc(data, x, u)` of the action model contract,
which writes the predicted next state and the scalar cost into `data`. -/
def ActionModel.calc (m : ActionModel) (d : ActionData) (x : VectorXd)
    (u : Option VectorXd) : ActionData :=
  { d with xnext := m.next x u, cost := m.cost x u }

/-- Modelled from the spec: the shooting problem (class `ShootingProblem`, not
part of the sources at hand) owns the running models, the terminal model and
one data record per stage. -/
structure ShootingProblem where
  x0 : VectorXd
  runningModels : List ActionModel
  terminalModel : ActionModel
  runningDatas : List ActionData
  terminalData : ActionData

/-- Modelled from the spec: construction of a shooting problem, which
allocates one data record per stage with `createData`. -/
def ShootingProblem.create (x0 : VectorXd) (runningModels : List ActionModel)
    (terminalModel : ActionModel) : ShootingProblem :=
  { x0 := x0
    runningModels := runningModels
    terminalModel := terminalModel
    runningDatas := runningModels.map (fun m => m.createData)
    terminalData := terminalModel.createData }

/-- Modelled from the spec: the per-stage precondition of
`ShootingProblem::calc`, each `us[t]` has the control dimension of stage
`t`. -/
def controlDimsOk : List ActionModel → List VectorXd → Bool
  | m :: ms, u :: us => decide (u.length = m.nu) && controlDimsOk ms us
  | _, _ => true

/-- Modelled from the spec: the stage loop of `ShootingProblem::calc`, which
delegates stage `t` to its action model on `(xs[t], us[t])`, overwrites the
stage's data record and accumulates the stage cost. -/
def calcStages : List ActionModel → List ActionData → List VectorXd →
    List VectorXd → ℚ → List ActionData × ℚ
  | m :: ms, d :: ds, x :: xs, u :: us, acc =>
    let d1 := m.calc d x (some u)
    let r := calcStages ms ds xs us (acc + d1.cost)
    (d1 :: r.1, r.2)
  | _, _, _, _, acc => ([], acc)

/-- Modelled from the spec: `ShootingProblem::calc(xs, us)` (not part of the
sources at hand).  The preconditions `len(xs) == N+1`, `len(us) == N` and the
per-stage control dimensions are checked first, a violation failing with a
dimension-mismatch error; otherwise each stage is delegated to its action
model, the terminal model is evaluated on `xs[N]`, and the total cost is
returned.  The second component is the problem after the call. -/
def ShootingProblem.calc (p : ShootingProblem) (xs us : List VectorXd) :
    Except SolverError ℚ × ShootingProblem :=
  let N := p.runningModels.length
  if xs.length ≠ N + 1 then (Except.error SolverError.DimensionMismatch, p)
  else if us.length ≠ N then (Except.error SolverError.DimensionMismatch, p)
  else if controlDimsOk p.runningModels us = false then
    (Except.error SolverError.DimensionMismatch, p)
  else
    let r := calcStages p.runningModels p.runningDatas xs us 0
    let term := p.terminalModel.calc p.terminalData (xs.getD N []) none
    (Except.ok (r.2 + term.cost), { p with runningDatas := r.1, terminalData := term })

/-! ## FDDP bookkeeping: regularization and line search -/

/-- Modelled from the spec: the configured constants of the solver (class
`SolverFDDP`, not part of the sources at hand): regularization bounds and
factors, the acceptance threshold of the line search, the threshold under
which an expected reduction counts as near zero, and the convergence
tolerance. -/
structure SolverParams where
  reg_min : ℚ
  reg_max : ℚ
  reg_incfactor : ℚ
  reg_decfactor : ℚ
  th_acceptstep : ℚ
  th_grad : ℚ
  th_stop : ℚ

/-- Modelled from the spec: the two regularization scalars, one for the
state-cost curvature and one for the control-cost curvature. -/
structure Regularization where
  xreg : ℚ
  ureg : ℚ
deriving DecidableEq, Repr

/-- Modelled from the spec: "increase regularization (bounded above)". -/
def increaseRegularization (c : SolverParams) (r : Regularization) : Regularization :=
  { xreg := min (r.xreg * c.reg_incfactor) c.reg_max
    ureg := min (r.ureg * c.reg_incfactor) c.reg_max }

/-- Modelled from the spec: "decrease regularization (bounded below)". -/
def decreaseRegularization (c : SolverParams) (r : Regularization) : Regularization :=
  { xreg := max (r.xreg / c.reg_decfactor) c.reg_min
    ureg := max (r.ureg / c.reg_decfactor) c.reg_min }

/-- What can happen to the regularization in the course of a solve: a step is
accepted, every step size is rejected, or the backward pass is retried after a
failed factorization. -/
inductive RegEvent where
  | accepted
  | rejected
  | backwardPassRetry
deriving DecidableEq, Repr

/-- Modelled from the spec: the regularization update, a decrease on
acceptance and an increase on full rejection and on a backward-pass retry. -/
def updateRegularization (c : SolverParams) (r : Regularization) :
    RegEvent → Regularization
  | RegEvent.accepted => decreaseRegularization c r
  | RegEvent.rejected => increaseRegularization c r
  | RegEvent.backwardPassRetry => increaseRegularization c r

/-- The regularization after a sequence of events, oldest first. -/
def regularizationAfter (c : SolverParams) (r : Regularization)
    (events : List RegEvent) : Regularization :=
  events.foldl (updateRegularization c) r

/-- The configured bounds hold for both regularization scalars. -/
def Regularization.InBounds (c : SolverParams) (r : Regularization) : Prop :=
  c.reg_min ≤ r.xreg ∧ r.xreg ≤ c.reg_max ∧ c.reg_min ≤ r.ureg ∧ r.ureg ≤ c.reg_max

/-- Modelled from the spec: the expected reduction for step size `alpha`, from
the linear and quadratic coefficients of the backward pass "scaled by
`alpha` / `alpha²`". -/
def expectedReduction (d1 d2 alpha : ℚ) : ℚ := alpha * d1 + alpha ^ 2 * d2

/-- Modelled from the spec: the acceptance test of the line search.  A step is
accepted when "the ratio (actual/expected) exceeds a configured acceptance
threshold, or [the] actual reduction is positive when [the] expected reduction
is near zero". -/
def acceptStep (c : SolverParams) (actual expected : ℚ) : Bool :=
  decide (c.th_acceptstep < actual / expected) ||
    (decide (|expected| ≤ c.th_grad) && decide (0 < actual))

/-- Modelled from the spec: the line search.  `tryStep alpha` is the total
cost of the candidate trajectory for step size `alpha`; the actual reduction
is the previous total cost minus the candidate total cost; the first accepted
step size is returned, `none` when every candidate is rejected. -/
def lineSearch (c : SolverParams) (prevCost d1 d2 : ℚ) (tryStep : ℚ → ℚ) :
    List ℚ → Option ℚ
  | [] => none
  | alpha :: alphas =>
    if acceptStep c (prevCost - tryStep alpha) (expectedReduction d1 d2 alpha) then
      some alpha
    else lineSearch c prevCost d1 d2 tryStep alphas

/-- Modelled from the spec: the part of the solver state that one iteration
updates: the total cost of the current trajectory, the regularization, and the
number of accepted iterations. -/
structure SolverState where
  cost : ℚ
  reg : Regularization
  accepted : Nat
deriving DecidableEq, Repr

/-- Modelled from the spec: the outcome of one iteration, given the
coefficients `d1`, `d2` of its backward pass.  An accepted step replaces the
trajectory (hence the cost) and decreases the regularization; a full
rejection keeps the trajectory and increases the regularization. -/
def iteration (c : SolverParams) (d1 d2 : ℚ) (tryStep : ℚ → ℚ)
    (alphas : List ℚ) (s : SolverState) : SolverState :=
  match lineSearch c s.cost d1 d2 tryStep alphas with
  | some alpha =>
    { cost := tryStep alpha
      reg := decreaseRegularization c s.reg
      accepted := s.accepted + 1 }
  | none => { s with reg := increaseRegularization c s.reg }

/-- The `quasiStatic` call of stage `j` in the loop of lines 49-55, when the
control `us[j]` holds `z j`. -/
def qsCall (x0 : VectorXd) (z : Nat → VectorXd) (j : Nat) : Call :=
  Call.quasiStatic j j j (z j) x0

/-- The calls of the three timed loops (lines 67-97) when they make `k1`,
`k2` and `k3` iterations on the trajectory `xs`, `us`. -/
def timedCalls (xs us : List VectorXd) (MAXITER k1 k2 k3 : Nat) : List Call :=
  List.replicate k1 (Call.solve xs us MAXITER false (1 / 10)) ++
    (List.replicate k2 (Call.calc xs us) ++ List.replicate k3 (Call.calcDiff xs us))

/-- The three timed loops of lines 67-97. -/
def timedLoops (env : Collaborators) (T MAXITER : Nat) (s : MainState) : MainState :=
  forLoop (callStmt Call.calcDiff env.calcDiffThrows) T 0
    (forLoop (callStmt Call.calc env.calcThrows) T 0
      (forLoop (callStmt (fun xs us => Call.solve xs us MAXITER false (1 / 10))
        (fun i xs us => env.solveThrows i xs us MAXITER false (1 / 10))) T 0 s))

/-- The `quasiStatic` calls of stages `0 .. k-1` of the benchmark: each on
its own model and data record, with the control `us[j]` still the zero vector
it was created as, and the state `x0`. -/
def qsCalls (env : Collaborators) (k : Nat) : List Call :=
  (List.range k).map (qsCall env.x0 (fun _ => VectorXd.Zero env.nu))

/-- An example environment in which every collaborator returns: controls of
dimension 2, `quasiStatic` leaving the control as it is. -/
def exampleEnv : Collaborators :=
  { nu := 2
    x0 := [1, 0, 0, 0]
    quasiStatic := fun _ u _ => Except.ok u
    solveThrows := fun _ _ _ _ _ _ => none
    calcThrows := fun _ _ _ => none
    calcDiffThrows := fun _ _ _ => none }

/-- An example environment in which `quasiStatic` fails to converge at
stage 1 (and returns at every other stage). -/
def failingEnv : Collaborators :=
  { nu := 2
    x0 := [1, 0, 0, 0]
    quasiStatic := fun i u _ =>
      if i = 1 then Except.error { what := "ConvergenceFailure" } else Except.ok u
    solveThrows := fun _ _ _ _ _ _ => none
    calcThrows := fun _ _ _ => none
    calcDiffThrows := fun _ _ _ => none }

/-- The stage costs of a trajectory: stage `t` contributes the cost of its
model on `(xs[t], us[t])`. -/
def stageCosts (ms : List ActionModel) (xs us : List VectorXd) : List ℚ :=
  List.zipWith (fun m xu => m.cost xu.1 (some xu.2)) ms (List.zip xs us)

/-- A data record with every field empty. -/
def ActionData.empty : ActionData :=
  { xnext := [], cost := 0, Lx := [], Lu := [], Lxx := [], Luu := [], Lxu := [],
    Fx := [], Fu := [] }

/-- An example action model with one control: the next state is the state
shifted by the control, the cost is the sum of the entries of the state and of
the control. -/
def exampleModel : ActionModel :=
  { nu := 1
    next := fun x u => x.map (fun a => a + (u.getD []).sum)
    cost := fun x u => x.sum + (u.getD []).sum
    createData := ActionData.empty }

/-- An example shooting problem with two running stages. -/
def exampleProblem : ShootingProblem :=
  ShootingProblem.create [1, 2] [exampleModel, exampleModel] exampleModel

/-- Example solver constants: regularization within `[1e-9, 1e9]`, changed
by a factor 10, acceptance threshold `0.1`. -/
def exampleParams : SolverParams :=
  { reg_min := 1 / 1000000000
    reg_max := 1000000000
    reg_incfactor := 10
    reg_decfactor := 10
    th_acceptstep := 1 / 10
    th_grad := 1 / 1000000000000
    th_stop := 1 / 1000000000 }

/-! ## The unit-test factory of differential action models

A shallow embedding of `unittest/factory/diff_action.cpp`.  The factory builds
objects of classes declared elsewhere (states, actuations, contacts, costs,
residuals, constraints); an object is embedded as the record of the
constructor call that makes it, and a container (`CostModelSum`,
`ConstraintModelManager`, `ContactModelMultiple`) as its control dimension
together with the items added to it, in order. -/

/-- The enumeration `DifferentialActionModelTypes::Type`, with the enumerators
that `diff_action.cpp` names. -/
inductive DifferentialActionModelTypes where
  | DifferentialActionModelLQR
  | DifferentialActionModelLQRDriftFree
  | DifferentialActionModelFreeFwdDynamics_TalosArm
  | DifferentialActionModelFreeFwdDynamics_TalosArm_Squashed
  | DifferentialActionModelFreeInvDynamics_TalosArm
  | DifferentialActionModelFreeInvDynamics_TalosArm_Squashed
  | DifferentialActionModelContactFwdDynamics_TalosArm
  | DifferentialActionModelContact2DFwdDynamics_TalosArm
  | DifferentialActionModelContactFwdDynamics_HyQ
  | DifferentialActionModelContactFwdDynamics_Talos
  | DifferentialActionModelContactFwdDynamicsWithFriction_TalosArm
  | DifferentialActionModelContact2DFwdDynamicsWithFriction_TalosArm
  | DifferentialActionModelContactFwdDynamicsWithFriction_HyQ
  | DifferentialActionModelContactFwdDynamicsWithFriction_Talos
  | DifferentialActionModelContactInvDynamics_TalosArm
  | DifferentialActionModelContactInvDynamics_HyQ
  | DifferentialActionModelContactInvDynamics_Talos
  | DifferentialActionModelContactInvDynamicsWithFriction_TalosArm
  | DifferentialActionModelContactInvDynamicsWithFriction_HyQ
  | DifferentialActionModelContactInvDynamicsWithFriction_Talos
  | NbDifferentialActionModelTypes
deriving DecidableEq, Repr

/-- The enumeration `StateModelTypes::Type` (declared in a header that is not
at hand): the four enumerators that `diff_action.cpp` names, and `other n` for
any other enumerator. -/
inductive StateModelTypes where
  | StateMultibody_TalosArm
  | StateMultibodyContact2D_TalosArm
  | StateMultibody_HyQ
  | StateMultibody_Talos
  | other (n : Nat)
deriving DecidableEq, Repr

/-- The enumeration `ActuationModelTypes::Type` (declared in a header that is
not at hand): the three enumerators that `diff_action.cpp` names, and
`other n` for any other enumerator. -/
inductive ActuationModelTypes where
  | ActuationModelFull
  | ActuationModelFloatingBase
  | ActuationModelSquashingFull
  | other (n : Nat)
deriving DecidableEq, Repr

/-- The enumeration `PinocchioModelTypes::Type` of `pinocchio_model.hpp`. -/
inductive PinocchioModelTypes where
  | Hector
  | TalosArm
  | HyQ
  | Talos
  | RandomHumanoid
  | NbPinocchioModelTypes
deriving DecidableEq, Repr

/-- The contact classes that the factory uses: `ContactModel2D`,
`ContactModel3D` and `ContactModel6D`. -/
inductive ContactModelTypes where
  | ContactModel2D
  | ContactModel3D
  | ContactModel6D
deriving DecidableEq, Repr

/-- Modelled from the spec: the dimension of a contact, 2, 3 and 6 for
`ContactModel2D`, `ContactModel3D` and `ContactModel6D` (classes declared in
headers that are not at hand). -/
def ContactModelTypes.nc : ContactModelTypes → Nat
  | ContactModelTypes.ContactModel2D => 2
  | ContactModelTypes.ContactModel3D => 3
  | ContactModelTypes.ContactModel6D => 6

/-- The cost types that the factory asks `CostModelFactory` for. -/
inductive CostModelTypes where
  | CostModelResidualState
  | CostModelResidualControl
  | CostModelResidualFramePlacement
deriving DecidableEq, Repr

/-- The constraint types that the factory asks `ConstraintModelFactory` for. -/
inductive ConstraintModelTypes where
  | ConstraintModelResidualFramePlacementEquality
  | ConstraintModelResidualFrameVelocityEquality
deriving DecidableEq, Repr

/-- The activation given to a cost: `ActivationModelQuad` of
`ActivationModelTypes` (for `CostModelFactory`), or the local
`friction_activation` or `wrench_activation` (quadratic barriers on the bounds
of the friction and of the wrench cone). -/
inductive Activation where
  | ActivationModelQuad
  | friction_activation
  | wrench_activation
deriving DecidableEq, Repr

/-- A residual model made by `make_shared`, with the arguments that matter
here: the frame (by name, for `getFrameId`), the dimension `nr` of the force of
`ResidualModelContactForce`, the control dimension `nu`, and the argument
`fwddyn` (`none` when the call does not give it). -/
inductive ResidualModel where
  | ContactFrictionCone (frame : String) (nu : Nat) (fwddyn : Option Bool)
  | ContactWrenchCone (frame : String) (nu : Nat) (fwddyn : Option Bool)
  | ContactForce (frame : String) (nr : Nat) (nu : Nat) (fwddyn : Option Bool)
  | JointEffort (nu : Nat)
  | JointAcceleration (nu : Nat)
deriving DecidableEq, Repr

/-- A cost model: made by `CostModelFactory().create(type, state_type,
activation[, nu])` (`nu` is `none` when the call does not give it), or
`CostModelResidual(state[, activation], residual)`. -/
inductive CostModel where
  | create (type : CostModelTypes) (state_type : StateModelTypes)
      (activation : Activation) (nu : Option Nat)
  | CostModelResidual (activation : Option Activation) (residual : ResidualModel)
deriving DecidableEq, Repr

/-- One `addCost(name, cost, weight)` of a `CostModelSum`. -/
structure CostItem where
  name : String
  cost : CostModel
  weight : ℚ
deriving DecidableEq, Repr

/-- The container `CostModelSum(state, nu)` and the costs added to it. -/
structure CostModelSum where
  nu : Nat
  costs : List CostItem
deriving DecidableEq, Repr

/-- The call `cost->addCost(name, cost, weight)`. -/
def CostModelSum.addCost (c : CostModelSum) (name : String) (cost : CostModel)
    (weight : ℚ) : CostModelSum :=
  { c with costs := c.costs ++ [{ name := name, cost := cost, weight := weight }] }

/-- One `addConstraint(name, constraint)`, the constraint made by
`ConstraintModelFactory().create(type, state_type[, nu])`. -/
structure ConstraintItem where
  name : String
  type : ConstraintModelTypes
  state_type : StateModelTypes
  nu : Option Nat
deriving DecidableEq, Repr

/-- The container `ConstraintModelManager(state, nu)` and the constraints
added to it. -/
structure ConstraintModelManager where
  nu : Nat
  constraints : List ConstraintItem
deriving DecidableEq, Repr

/-- The call `constraint->addConstraint(name, ...create(type, state_type[, nu]))`. -/
def ConstraintModelManager.addConstraint (c : ConstraintModelManager) (name : String)
    (type : ConstraintModelTypes) (state_type : StateModelTypes) (nu : Option Nat) :
    ConstraintModelManager :=
  { c with constraints := c.constraints ++
      [{ name := name, type := type, state_type := state_type, nu := nu }] }

/-- A contact model: `make_shared<ContactModel2D/3D>(state, frame, zero, nu)`
(`model` is `none`), or `ContactModelFactory().create(type, model, frame, nu)`. -/
structure ContactModel where
  type : ContactModelTypes
  model : Option PinocchioModelTypes
  frame : String
  nu : Nat
deriving DecidableEq, Repr

/-- One `addContact(name, contact)` of a `ContactModelMultiple`. -/
structure ContactItem where
  name : String
  contact : ContactModel
deriving DecidableEq, Repr

/-- The container `ContactModelMultiple(state, nu)` and the contacts added to
it. -/
structure ContactModelMultiple where
  nu : Nat
  contacts : List ContactItem
deriving DecidableEq, Repr

/-- The call `contact->addContact(name, contact)`. -/
def ContactModelMultiple.addContact (c : ContactModelMultiple) (name : String)
    (contact : ContactModel) : ContactModelMultiple :=
  { c with contacts := c.contacts ++ [{ name := name, contact := contact }] }

/-- A differential action model, as the constructor call that makes it.  The
state is given by its `StateModelTypes` (it comes from `StateModelFactory`),
the actuation by its `ActuationModelTypes`. -/
inductive DifferentialActionModel where
  | LQR (nq nu : Nat) (driftfree : Bool)
  | FreeFwdDynamics (state : StateModelTypes) (actuation : ActuationModelTypes)
      (cost : CostModelSum) (constraint : ConstraintModelManager)
  | FreeInvDynamics (state : StateModelTypes) (actuation : ActuationModelTypes)
      (cost : CostModelSum) (constraint : ConstraintModelManager)
  | ContactFwdDynamics (state : StateModelTypes) (actuation : ActuationModelTypes)
      (contact : ContactModelMultiple) (cost : CostModelSum) (JMinvJt_damping : ℚ)
      (enable_force : Bool)
  | ContactInvDynamics (state : StateModelTypes) (actuation : ActuationModelTypes)
      (contact : ContactModelMultiple) (cost : CostModelSum)
deriving DecidableEq, Repr

/-- What the factory reads from objects whose classes are declared elsewhere:
`state->get_nv()` for the state of a state type, `actuation->get_nu()` for the
actuation of an actuation type on a state type, and the default value of the
parameter `with_friction` of `create_contactFwdDynamics` and
`create_contactInvDynamics` (declared in `diff_action.hpp`). -/
structure FactoryEnv where
  get_nv : StateModelTypes → Nat
  get_nu : ActuationModelTypes → StateModelTypes → Nat
  with_friction_default : Bool

/-- The function `DifferentialActionModelFactory::create_freeFwdDynamics`. -/
def create_freeFwdDynamics (env : FactoryEnv) (state_type : StateModelTypes)
    (actuation_type : ActuationModelTypes) : Except Exception DifferentialActionModel :=
  let nu := env.get_nu actuation_type state_type
  let cost : CostModelSum :=
    ((((({ nu := nu, costs := [] } : CostModelSum).addCost "state"
        (CostModel.create CostModelTypes.CostModelResidualState state_type
          Activation.ActivationModelQuad none) 1).addCost "control"
        (CostModel.create CostModelTypes.CostModelResidualControl state_type
          Activation.ActivationModelQuad none) 1).addCost "joint_eff"
        (CostModel.CostModelResidual none (ResidualModel.JointEffort nu)) 1).addCost "joint_acc"
        (CostModel.CostModelResidual none (ResidualModel.JointAcceleration nu))
        (1 / 100)).addCost "frame"
        (CostModel.create CostModelTypes.CostModelResidualFramePlacement state_type
          Activation.ActivationModelQuad none) 1
  let constraint : ConstraintModelManager :=
    (({ nu := nu, constraints := [] } : ConstraintModelManager).addConstraint "frame"
        ConstraintModelTypes.ConstraintModelResidualFramePlacementEquality state_type
        none).addConstraint "frame-velocity"
        ConstraintModelTypes.ConstraintModelResidualFrameVelocityEquality state_type none
  Except.ok (DifferentialActionModel.FreeFwdDynamics state_type actuation_type cost constraint)

/-- The function `DifferentialActionModelFactory::create_freeInvDynamics`. -/
def create_freeInvDynamics (env : FactoryEnv) (state_type : StateModelTypes)
    (actuation_type : ActuationModelTypes) : Except Exception DifferentialActionModel :=
  let nu := env.get_nv state_type + env.get_nu actuation_type state_type
  let cost : CostModelSum :=
    ((({ nu := nu, costs := [] } : CostModelSum).addCost "state"
        (CostModel.create CostModelTypes.CostModelResidualState state_type
          Activation.ActivationModelQuad (some nu)) 1).addCost "control"
        (CostModel.create CostModelTypes.CostModelResidualControl state_type
          Activation.ActivationModelQuad (some nu)) 1).addCost "frame"
        (CostModel.create CostModelTypes.CostModelResidualFramePlacement state_type
          Activation.ActivationModelQuad (some nu)) 1
  let constraint : ConstraintModelManager :=
    (({ nu := nu, constraints := [] } : ConstraintModelManager).addConstraint "frame"
        ConstraintModelTypes.ConstraintModelResidualFramePlacementEquality state_type
        (some nu)).addConstraint "frame-velocity"
        ConstraintModelTypes.ConstraintModelResidualFrameVelocityEquality state_type (some nu)
  Except.ok (DifferentialActionModel.FreeInvDynamics state_type actuation_type cost constraint)

/-- The `switch (state_type)` of `create_contactFwdDynamics`, with `nu` the
value of `actuation->get_nu()`: the control dimension of the containers (the
one they were made with before the switch), the contacts, and the costs added
when `with_friction` holds.  The `default` label throws; the message of
`throw_pretty(__FILE__ ": ...")` is embedded without the file name in
front. -/
def contactFwdSwitch (nu : Nat) (state_type : StateModelTypes) (with_friction : Bool) :
    Except Exception (Nat × ContactModelMultiple × CostModelSum) :=
  match state_type with
  | StateModelTypes.StateMultibody_TalosArm =>
    Except.ok
      (nu,
       (({ nu := nu, contacts := [] } : ContactModelMultiple).addContact "lf"
        { type := ContactModelTypes.ContactModel3D, model := none,
          frame := "gripper_left_fingertip_1_link", nu := nu }),
       if with_friction then
         ((({ nu := nu, costs := [] } : CostModelSum).addCost "lf_cone"
        (CostModel.CostModelResidual (some Activation.friction_activation)
          (ResidualModel.ContactFrictionCone "gripper_left_fingertip_1_link" nu none)) (1 / 10)).addCost "lf_forceReg"
        (CostModel.CostModelResidual none
          (ResidualModel.ContactForce "gripper_left_fingertip_1_link" 3 nu none)) (1 / 10))
       else ({ nu := nu, costs := [] } : CostModelSum))
  | StateModelTypes.StateMultibodyContact2D_TalosArm =>
    Except.ok
      (nu,
       (({ nu := nu, contacts := [] } : ContactModelMultiple).addContact "lf"
        { type := ContactModelTypes.ContactModel2D, model := none,
          frame := "gripper_left_fingertip_1_link", nu := nu }),
       if with_friction then
         (({ nu := nu, costs := [] } : CostModelSum).addCost "lf_cone"
        (CostModel.CostModelResidual (some Activation.friction_activation)
          (ResidualModel.ContactFrictionCone "gripper_left_fingertip_1_link" nu none)) (1 / 10))
       else ({ nu := nu, costs := [] } : CostModelSum))
  | StateModelTypes.StateMultibody_HyQ =>
    Except.ok
      (nu,
       ((((({ nu := nu, contacts := [] } : ContactModelMultiple).addContact "lf"
        { type := ContactModelTypes.ContactModel3D, model := some PinocchioModelTypes.HyQ,
          frame := "lf_foot", nu := nu }).addContact "rf"
        { type := ContactModelTypes.ContactModel3D, model := some PinocchioModelTypes.HyQ,
          frame := "rf_foot", nu := nu }).addContact "lh"
        { type := ContactModelTypes.ContactModel3D, model := some PinocchioModelTypes.HyQ,
          frame := "lh_foot", nu := nu }).addContact "rh"
        { type := ContactModelTypes.ContactModel3D, model := some PinocchioModelTypes.HyQ,
          frame := "rh_foot", nu := nu }),
       if with_friction then
         ((((((((({ nu := nu, costs := [] } : CostModelSum).addCost "lf_cone"
        (CostModel.CostModelResidual (some Activation.friction_activation)
          (ResidualModel.ContactFrictionCone "lf_foot" nu none)) (1 / 10)).addCost "rf_cone"
        (CostModel.CostModelResidual (some Activation.friction_activation)
          (ResidualModel.ContactFrictionCone "rf_foot" nu none)) (1 / 10)).addCost "lh_cone"
        (CostModel.CostModelResidual (some Activation.friction_activation)
          (ResidualModel.ContactFrictionCone "lh_foot" nu none)) (1 / 10)).addCost "rh_cone"
        (CostModel.CostModelResidual (some Activation.friction_activation)
          (ResidualModel.ContactFrictionCone "rh_foot" nu none)) (1 / 10)).addCost "lf_forceReg"
        (CostModel.CostModelResidual none
          (ResidualModel.ContactForce "lf_foot" 3 nu none)) (1 / 10)).addCost "rf_forceReg"
        (CostModel.CostModelResidual none
          (ResidualModel.ContactForce "rf_foot" 3 nu none)) (1 / 10)).addCost "lh_forceReg"
        (CostModel.CostModelResidual none
          (ResidualModel.ContactForce "lh_foot" 3 nu none)) (1 / 10)).addCost "rh_forceReg"
        (CostModel.CostModelResidual none
          (ResidualModel.ContactForce "rh_foot" 3 nu none)) (1 / 10))
       else ({ nu := nu, costs := [] } : CostModelSum))
  | StateModelTypes.StateMultibody_Talos =>
    Except.ok
      (nu,
       ((({ nu := nu, contacts := [] } : ContactModelMultiple).addContact "lf"
        { type := ContactModelTypes.ContactModel6D, model := some PinocchioModelTypes.Talos,
          frame := "left_sole_link", nu := nu }).addContact "rf"
        { type := ContactModelTypes.ContactModel6D, model := some PinocchioModelTypes.Talos,
          frame := "right_sole_link", nu := nu }),
       if with_friction then
         ((((({ nu := nu, costs := [] } : CostModelSum).addCost "lf_cone"
        (CostModel.CostModelResidual (some Activation.friction_activation)
          (ResidualModel.ContactFrictionCone "left_sole_link" nu none)) (1 / 100)).addCost "rf_cone"
        (CostModel.CostModelResidual (some Activation.wrench_activation)
          (ResidualModel.ContactWrenchCone "right_sole_link" nu none)) (1 / 100)).addCost "lf_forceReg"
        (CostModel.CostModelResidual none
          (ResidualModel.ContactForce "left_sole_link" 6 nu none)) (1 / 100)).addCost "rf_forceReg"
        (CostModel.CostModelResidual none
          (ResidualModel.ContactForce "right_sole_link" 6 nu none)) (1 / 100))
       else ({ nu := nu, costs := [] } : CostModelSum))
  | _ => Except.error { what := "Wrong StateModelTypes::Type given" }

/-- The function `DifferentialActionModelFactory::create_contactFwdDynamics`. -/
def create_contactFwdDynamics (env : FactoryEnv) (state_type : StateModelTypes)
    (actuation_type : ActuationModelTypes) (with_friction : Bool) :
    Except Exception DifferentialActionModel :=
  let nu := env.get_nu actuation_type state_type
  match contactFwdSwitch nu state_type with_friction with
  | Except.error e => Except.error e
  | Except.ok (_, contact, cost) =>
    let cost1 : CostModelSum :=
      ((cost.addCost "state"
          (CostModel.create CostModelTypes.CostModelResidualState state_type
            Activation.ActivationModelQuad (some nu)) (1 / 10)).addCost "control"
          (CostModel.create CostModelTypes.CostModelResidualControl state_type
            Activation.ActivationModelQuad (some nu)) (1 / 10)).addCost "joint_eff"
          (CostModel.CostModelResidual none (ResidualModel.JointEffort nu)) (1 / 10)
    Except.ok (DifferentialActionModel.ContactFwdDynamics state_type actuation_type
      contact cost1 0 true)

/-- The `switch (state_type)` of `create_contactInvDynamics`, with `nu` the
value of `state->get_nv() + actuation->get_nu()` before the switch: the value
of `nu` after `nu += ...`, the contacts, and the costs added when
`with_friction` holds.  The `default` label throws. -/
def contactInvSwitch (nu : Nat) (state_type : StateModelTypes) (with_friction : Bool) :
    Except Exception (Nat × ContactModelMultiple × CostModelSum) :=
  match state_type with
  | StateModelTypes.StateMultibody_TalosArm =>
    Except.ok
      ((nu + 3),
       (({ nu := (nu + 3), contacts := [] } : ContactModelMultiple).addContact "lf"
        { type := ContactModelTypes.ContactModel3D, model := none,
          frame := "gripper_left_fingertip_1_link", nu := (nu + 3) }),
       if with_friction then
         ((({ nu := (nu + 3), costs := [] } : CostModelSum).addCost "lf_cone"
        (CostModel.CostModelResidual (some Activation.friction_activation)
          (ResidualModel.ContactFrictionCone "gripper_left_fingertip_1_link" (nu + 3) (some false))) (1 / 10)).addCost "lf_forceReg"
        (CostModel.CostModelResidual none
          (ResidualModel.ContactForce "gripper_left_fingertip_1_link" 3 (nu + 3) (some false))) (1 / 10))
       else ({ nu := (nu + 3), costs := [] } : CostModelSum))
  | StateModelTypes.StateMultibody_HyQ =>
    Except.ok
      ((nu + 12),
       ((((({ nu := (nu + 12), contacts := [] } : ContactModelMultiple).addContact "lf"
        { type := ContactModelTypes.ContactModel3D, model := some PinocchioModelTypes.HyQ,
          frame := "lf_foot", nu := (nu + 12) }).addContact "rf"
        { type := ContactModelTypes.ContactModel3D, model := some PinocchioModelTypes.HyQ,
          frame := "rf_foot", nu := (nu + 12) }).addContact "lh"
        { type := ContactModelTypes.ContactModel3D, model := some PinocchioModelTypes.HyQ,
          frame := "lh_foot", nu := (nu + 12) }).addContact "rh"
        { type := ContactModelTypes.ContactModel3D, model := some PinocchioModelTypes.HyQ,
          frame := "rh_foot", nu := (nu + 12) }),
       if with_friction then
         ((((((((({ nu := (nu + 12), costs := [] } : CostModelSum).addCost "lf_cone"
        (CostModel.CostModelResidual (some Activation.friction_activation)
          (ResidualModel.ContactFrictionCone "lf_foot" (nu + 12) (some false))) (1 / 10)).addCost "rf_cone"
        (CostModel.CostModelResidual (some Activation.friction_activation)
          (ResidualModel.ContactFrictionCone "rf_foot" (nu + 12) (some false))) (1 / 10)).addCost "lh_cone"
        (CostModel.CostModelResidual (some Activation.friction_activation)
          (ResidualModel.ContactFrictionCone "lh_foot" (nu + 12) (some false))) (1 / 10)).addCost "rh_cone"
        (CostModel.CostModelResidual (some Activation.friction_activation)
          (ResidualModel.ContactFrictionCone "rh_foot" (nu + 12) (some false))) (1 / 10)).addCost "lf_forceReg"
        (CostModel.CostModelResidual none
          (ResidualModel.ContactForce "lf_foot" 3 (nu + 12) (some false))) (1 / 10)).addCost "rf_forceReg"
        (CostModel.CostModelResidual none
          (ResidualModel.ContactForce "rf_foot" 3 (nu + 12) (some false))) (1 / 10)).addCost "lh_forceReg"
        (CostModel.CostModelResidual none
          (ResidualModel.ContactForce "lh_foot" 3 (nu + 12) (some false))) (1 / 10)).addCost "rh_forceReg"
        (CostModel.CostModelResidual none
          (ResidualModel.ContactForce "rh_foot" 3 (nu + 12) (some false))) (1 / 10))
       else ({ nu := (nu + 12), costs := [] } : CostModelSum))
  | StateModelTypes.StateMultibody_Talos =>
    Except.ok
      ((nu + 12),
       ((({ nu := (nu + 12), contacts := [] } : ContactModelMultiple).addContact "lf"
        { type := ContactModelTypes.ContactModel6D, model := some PinocchioModelTypes.Talos,
          frame := "left_sole_link", nu := (nu + 12) }).addContact "rf"
        { type := ContactModelTypes.ContactModel6D, model := some PinocchioModelTypes.Talos,
          frame := "right_sole_link", nu := (nu + 12) }),
       if with_friction then
         ((((({ nu := (nu + 12), costs := [] } : CostModelSum).addCost "lf_cone"
        (CostModel.CostModelResidual (some Activation.friction_activation)
          (ResidualModel.ContactFrictionCone "left_sole_link" (nu + 12) (some false))) (1 / 100)).addCost "rf_cone"
        (CostModel.CostModelResidual (some Activation.wrench_activation)
          (ResidualModel.ContactWrenchCone "right_sole_link" (nu + 12) (some false))) (1 / 100)).addCost "lf_forceReg"
        (CostModel.CostModelResidual none
          (ResidualModel.ContactForce "left_sole_link" 6 (nu + 12) (some false))) (1 / 100)).addCost "rf_forceReg"
        (CostModel.CostModelResidual none
          (ResidualModel.ContactForce "right_sole_link" 6 (nu + 12) (some false))) (1 / 100))
       else ({ nu := (nu + 12), costs := [] } : CostModelSum))
  | _ => Except.error { what := "Wrong StateModelTypes::Type given" }

/-- The function `DifferentialActionModelFactory::create_contactInvDynamics`. -/
def create_contactInvDynamics (env : FactoryEnv) (state_type : StateModelTypes)
    (actuation_type : ActuationModelTypes) (with_friction : Bool) :
    Except Exception DifferentialActionModel :=
  let nu0 := env.get_nv state_type + env.get_nu actuation_type state_type
  match contactInvSwitch nu0 state_type with_friction with
  | Except.error e => Except.error e
  | Except.ok (nu, contact, cost) =>
    let cost1 : CostModelSum :=
      (cost.addCost "state"
          (CostModel.create CostModelTypes.CostModelResidualState state_type
            Activation.ActivationModelQuad (some nu)) (1 / 10)).addCost "control"
          (CostModel.create CostModelTypes.CostModelResidualControl state_type
            Activation.ActivationModelQuad (some nu)) (1 / 10)
    Except.ok (DifferentialActionModel.ContactInvDynamics state_type actuation_type
      contact cost1)

/-- The function `DifferentialActionModelFactory::create`.  The calls that give
`create_contactFwdDynamics` and `create_contactInvDynamics` two arguments
leave `with_friction` to its default value.  The message of
`throw_pretty(__FILE__ ": ...")` is embedded without the file name in
front. -/
def DifferentialActionModelFactory.create (env : FactoryEnv)
    (type : DifferentialActionModelTypes) : Except Exception DifferentialActionModel :=
  match type with
  | DifferentialActionModelTypes.DifferentialActionModelLQR =>
    Except.ok (DifferentialActionModel.LQR 40 40 false)
  | DifferentialActionModelTypes.DifferentialActionModelLQRDriftFree =>
    Except.ok (DifferentialActionModel.LQR 40 40 true)
  | DifferentialActionModelTypes.DifferentialActionModelFreeFwdDynamics_TalosArm =>
    create_freeFwdDynamics env StateModelTypes.StateMultibody_TalosArm
      ActuationModelTypes.ActuationModelFull
  | DifferentialActionModelTypes.DifferentialActionModelFreeInvDynamics_TalosArm =>
    create_freeInvDynamics env StateModelTypes.StateMultibody_TalosArm
      ActuationModelTypes.ActuationModelFull
  | DifferentialActionModelTypes.DifferentialActionModelFreeFwdDynamics_TalosArm_Squashed =>
    create_freeFwdDynamics env StateModelTypes.StateMultibody_TalosArm
      ActuationModelTypes.ActuationModelSquashingFull
  | DifferentialActionModelTypes.DifferentialActionModelFreeInvDynamics_TalosArm_Squashed =>
    create_freeInvDynamics env StateModelTypes.StateMultibody_TalosArm
      ActuationModelTypes.ActuationModelSquashingFull
  | DifferentialActionModelTypes.DifferentialActionModelContactFwdDynamics_TalosArm =>
    create_contactFwdDynamics env StateModelTypes.StateMultibody_TalosArm
      ActuationModelTypes.ActuationModelFull false
  | DifferentialActionModelTypes.DifferentialActionModelContact2DFwdDynamics_TalosArm =>
    create_contactFwdDynamics env StateModelTypes.StateMultibodyContact2D_TalosArm
      ActuationModelTypes.ActuationModelFull false
  | DifferentialActionModelTypes.DifferentialActionModelContactFwdDynamics_HyQ =>
    create_contactFwdDynamics env StateModelTypes.StateMultibody_HyQ
      ActuationModelTypes.ActuationModelFloatingBase false
  | DifferentialActionModelTypes.DifferentialActionModelContactFwdDynamics_Talos =>
    create_contactFwdDynamics env StateModelTypes.StateMultibody_Talos
      ActuationModelTypes.ActuationModelFloatingBase false
  | DifferentialActionModelTypes.DifferentialActionModelContactFwdDynamicsWithFriction_TalosArm =>
    create_contactFwdDynamics env StateModelTypes.StateMultibody_TalosArm
      ActuationModelTypes.ActuationModelFull env.with_friction_default
  | DifferentialActionModelTypes.DifferentialActionModelContact2DFwdDynamicsWithFriction_TalosArm =>
    create_contactFwdDynamics env StateModelTypes.StateMultibodyContact2D_TalosArm
      ActuationModelTypes.ActuationModelFull env.with_friction_default
  | DifferentialActionModelTypes.DifferentialActionModelContactFwdDynamicsWithFriction_HyQ =>
    create_contactFwdDynamics env StateModelTypes.StateMultibody_HyQ
      ActuationModelTypes.ActuationModelFloatingBase env.with_friction_default
  | DifferentialActionModelTypes.DifferentialActionModelContactFwdDynamicsWithFriction_Talos =>
    create_contactFwdDynamics env StateModelTypes.StateMultibody_Talos
      ActuationModelTypes.ActuationModelFloatingBase env.with_friction_default
  | DifferentialActionModelTypes.DifferentialActionModelContactInvDynamics_TalosArm =>
    create_contactInvDynamics env StateModelTypes.StateMultibody_TalosArm
      ActuationModelTypes.ActuationModelFloatingBase false
  | DifferentialActionModelTypes.DifferentialActionModelContactInvDynamics_HyQ =>
    create_contactInvDynamics env StateModelTypes.StateMultibody_HyQ
      ActuationModelTypes.ActuationModelFloatingBase false
  | DifferentialActionModelTypes.DifferentialActionModelContactInvDynamics_Talos =>
    create_contactInvDynamics env StateModelTypes.StateMultibody_Talos
      ActuationModelTypes.ActuationModelFloatingBase false
  | DifferentialActionModelTypes.DifferentialActionModelContactInvDynamicsWithFriction_TalosArm =>
    create_contactInvDynamics env StateModelTypes.StateMultibody_TalosArm
      ActuationModelTypes.ActuationModelFull env.with_friction_default
  | DifferentialActionModelTypes.DifferentialActionModelContactInvDynamicsWithFriction_HyQ =>
    create_contactInvDynamics env StateModelTypes.StateMultibody_HyQ
      ActuationModelTypes.ActuationModelFloatingBase env.with_friction_default
  | DifferentialActionModelTypes.DifferentialActionModelContactInvDynamicsWithFriction_Talos =>
    create_contactInvDynamics env StateModelTypes.StateMultibody_Talos
      ActuationModelTypes.ActuationModelFloatingBase env.with_friction_default
  | _ => Except.error { what := "Wrong DifferentialActionModelTypes::Type given" }

/-- The 20 model types that the `switch` of `create` lists, in the order of its
`case` labels. -/
def listedTypes : List DifferentialActionModelTypes :=
  [DifferentialActionModelTypes.DifferentialActionModelLQR,
   DifferentialActionModelTypes.DifferentialActionModelLQRDriftFree,
   DifferentialActionModelTypes.DifferentialActionModelFreeFwdDynamics_TalosArm,
   DifferentialActionModelTypes.DifferentialActionModelFreeInvDynamics_TalosArm,
   DifferentialActionModelTypes.DifferentialActionModelFreeFwdDynamics_TalosArm_Squashed,
   DifferentialActionModelTypes.DifferentialActionModelFreeInvDynamics_TalosArm_Squashed,
   DifferentialActionModelTypes.DifferentialActionModelContactFwdDynamics_TalosArm,
   DifferentialActionModelTypes.DifferentialActionModelContact2DFwdDynamics_TalosArm,
   DifferentialActionModelTypes.DifferentialActionModelContactFwdDynamics_HyQ,
   DifferentialActionModelTypes.DifferentialActionModelContactFwdDynamics_Talos,
   DifferentialActionModelTypes.DifferentialActionModelContactFwdDynamicsWithFriction_TalosArm,
   DifferentialActionModelTypes.DifferentialActionModelContact2DFwdDynamicsWithFriction_TalosArm,
   DifferentialActionModelTypes.DifferentialActionModelContactFwdDynamicsWithFriction_HyQ,
   DifferentialActionModelTypes.DifferentialActionModelContactFwdDynamicsWithFriction_Talos,
   DifferentialActionModelTypes.DifferentialActionModelContactInvDynamics_TalosArm,
   DifferentialActionModelTypes.DifferentialActionModelContactInvDynamics_HyQ,
   DifferentialActionModelTypes.DifferentialActionModelContactInvDynamics_Talos,
   DifferentialActionModelTypes.DifferentialActionModelContactInvDynamicsWithFriction_TalosArm,
   DifferentialActionModelTypes.DifferentialActionModelContactInvDynamicsWithFriction_HyQ,
   DifferentialActionModelTypes.DifferentialActionModelContactInvDynamicsWithFriction_Talos]

/-- The state type that a differential action model was built for (none for
the LQR models). -/
def DifferentialActionModel.state_type : DifferentialActionModel → Option StateModelTypes
  | DifferentialActionModel.LQR _ _ _ => none
  | DifferentialActionModel.FreeFwdDynamics st _ _ _ => some st
  | DifferentialActionModel.FreeInvDynamics st _ _ _ => some st
  | DifferentialActionModel.ContactFwdDynamics st _ _ _ _ _ => some st
  | DifferentialActionModel.ContactInvDynamics st _ _ _ => some st

/-- The actuation type that a differential action model was built with (none
for the LQR models). -/
def DifferentialActionModel.actuation_type :
    DifferentialActionModel → Option ActuationModelTypes
  | DifferentialActionModel.LQR _ _ _ => none
  | DifferentialActionModel.FreeFwdDynamics _ a _ _ => some a
  | DifferentialActionModel.FreeInvDynamics _ a _ _ => some a
  | DifferentialActionModel.ContactFwdDynamics _ a _ _ _ _ => some a
  | DifferentialActionModel.ContactInvDynamics _ a _ _ => some a

/-- The costs of a differential action model (none for the LQR models). -/
def DifferentialActionModel.cost : DifferentialActionModel → Option CostModelSum
  | DifferentialActionModel.LQR _ _ _ => none
  | DifferentialActionModel.FreeFwdDynamics _ _ c _ => some c
  | DifferentialActionModel.FreeInvDynamics _ _ c _ => some c
  | DifferentialActionModel.ContactFwdDynamics _ _ _ c _ _ => some c
  | DifferentialActionModel.ContactInvDynamics _ _ _ c => some c

/-- The contacts of a contact-dynamics model (none for the other models). -/
def DifferentialActionModel.contact : DifferentialActionModel → Option ContactModelMultiple
  | DifferentialActionModel.ContactFwdDynamics _ _ c _ _ _ => some c
  | DifferentialActionModel.ContactInvDynamics _ _ c _ => some c
  | _ => none

/-- The constraints of a free-dynamics model (none for the other models). -/
def DifferentialActionModel.constraint :
    DifferentialActionModel → Option ConstraintModelManager
  | DifferentialActionModel.FreeFwdDynamics _ _ _ c => some c
  | DifferentialActionModel.FreeInvDynamics _ _ _ c => some c
  | _ => none

/-- A factory environment for examples: 7 velocities for the arm, 18 for the
legged robots, a full actuation of `nv` controls and a floating-base actuation
of `nv - 6` controls. -/
def exampleFactoryEnv : FactoryEnv :=
  { get_nv := fun st =>
      match st with
      | StateModelTypes.StateMultibody_TalosArm => 7
      | StateModelTypes.StateMultibodyContact2D_TalosArm => 7
      | _ => 18
    get_nu := fun a st =>
      match a, st with
      | ActuationModelTypes.ActuationModelFloatingBase,
        StateModelTypes.StateMultibody_TalosArm => 1
      | ActuationModelTypes.ActuationModelFloatingBase, _ => 12
      | _, StateModelTypes.StateMultibody_TalosArm => 7
      | _, StateModelTypes.StateMultibodyContact2D_TalosArm => 7
      | _, _ => 18
    with_friction_default := true }

/-- The dimension of the contacts of a `ContactModelMultiple`: the sum of the
dimensions of the contacts added to it. -/
def ContactModelMultiple.nc (c : ContactModelMultiple) : Nat :=
  (c.contacts.map (fun i => i.contact.type.nc)).sum

/-- The control dimension that a residual model is made with. -/
def ResidualModel.nu : ResidualModel → Nat
  | ResidualModel.ContactFrictionCone _ nu _ => nu
  | ResidualModel.ContactWrenchCone _ nu _ => nu
  | ResidualModel.ContactForce _ _ nu _ => nu
  | ResidualModel.JointEffort nu => nu
  | ResidualModel.JointAcceleration nu => nu

/-- The control dimension that a cost model is made with: the argument `nu` of
`CostModelFactory().create` (none when the call leaves it out), or the control
dimension of the residual of a `CostModelResidual`. -/
def CostModel.nu : CostModel → Option Nat
  | CostModel.create _ _ _ nu => nu
  | CostModel.CostModelResidual _ r => some r.nu

/-- Every cost of the container is made with the control dimension of the
container. -/
def CostModelSum.nuConsistent (c : CostModelSum) : Bool :=
  c.costs.all (fun i => decide (i.cost.nu = some c.nu))

/-- Every contact of the container is made with the control dimension of the
container. -/
def ContactModelMultiple.nuConsistent (c : ContactModelMultiple) : Bool :=
  c.contacts.all (fun i => decide (i.contact.nu = c.nu))

/-- Every constraint of the container is made with the control dimension of
the container. -/
def ConstraintModelManager.nuConsistent (c : ConstraintModelManager) : Bool :=
  c.constraints.all (fun i => decide (i.nu = some c.nu))

/-- Every cost (hence every residual), contact and constraint of the model is
made with the control dimension of the container it is added to. -/
def DifferentialActionModel.nuConsistent : DifferentialActionModel → Bool
  | DifferentialActionModel.LQR _ _ _ => true
  | DifferentialActionModel.FreeFwdDynamics _ _ cost constraint =>
    cost.nuConsistent && constraint.nuConsistent
  | DifferentialActionModel.FreeInvDynamics _ _ cost constraint =>
    cost.nuConsistent && constraint.nuConsistent
  | DifferentialActionModel.ContactFwdDynamics _ _ contact cost _ _ =>
    contact.nuConsistent && cost.nuConsistent
  | DifferentialActionModel.ContactInvDynamics _ _ contact cost =>
    contact.nuConsistent && cost.nuConsistent

/-- The cost is a cone cost: a `CostModelResidual` on a
`ResidualModelContactFrictionCone` or a `ResidualModelContactWrenchCone`. -/
def CostModel.isCone : CostModel → Bool
  | CostModel.CostModelResidual _ (ResidualModel.ContactFrictionCone _ _ _) => true
  | CostModel.CostModelResidual _ (ResidualModel.ContactWrenchCone _ _ _) => true
  | _ => false

/-- The force dimension of a force-regularization cost, a `CostModelResidual`
on a `ResidualModelContactForce`; none for any other cost. -/
def CostModel.forceDim : CostModel → Option Nat
  | CostModel.CostModelResidual _ (ResidualModel.ContactForce _ nr _ _) => some nr
  | _ => none

/-- The costs that were added to the container under a given name. -/
def CostModelSum.named (c : CostModelSum) (name : String) : List CostModel :=
  (c.costs.filter (fun i => i.name == name)).map (fun i => i.cost)

/-- The friction costs of one contact `c`: exactly one cost is named
`<c>_cone`, and it is a cone cost; for a 2D contact no cost is named
`<c>_forceReg`; for any other contact exactly one cost is named
`<c>_forceReg`, and it is a force regularization of the dimension of the
contact. -/
def frictionCostsOf (cost : CostModelSum) (c : ContactItem) : Bool :=
  ((cost.named (c.name ++ "_cone")).map CostModel.isCone == [true]) &&
    (if c.contact.type = ContactModelTypes.ContactModel2D then
      (cost.named (c.name ++ "_forceReg")).isEmpty
    else
      (cost.named (c.name ++ "_forceReg")).map CostModel.forceDim
        == [some c.contact.type.nc])

/-- The friction costs of a model with friction: every contact has its
friction costs, and the container holds no other cone cost and no other force
regularization (there are as many cone costs as contacts, and as many force
regularizations as contacts that are not 2D). -/
def frictionCostsOk (contact : ContactModelMultiple) (cost : CostModelSum) : Bool :=
  contact.contacts.all (frictionCostsOf cost) &&
    ((cost.costs.filter (fun i => i.cost.isCone)).length == contact.contacts.length) &&
    ((cost.costs.filter (fun i => i.cost.forceDim.isSome)).length
      == (contact.contacts.filter
          (fun c => decide (c.contact.type ≠ ContactModelTypes.ContactModel2D))).length)

/-- The container holds no cone cost and no force regularization. -/
def noFrictionCosts (cost : CostModelSum) : Bool :=
  cost.costs.all (fun i => !i.cost.isCone && i.cost.forceDim.isNone)

/-- The argument `fwddyn` of the contact-dependent residuals (friction cone,
wrench cone, contact force) of the costs of a container, in order; an entry is
`none` when the residual is made without that argument. -/
def CostModelSum.fwddynArgs (c : CostModelSum) : List (Option Bool) :=
  c.costs.filterMap (fun i =>
    match i.cost with
    | CostModel.CostModelResidual _ (ResidualModel.ContactFrictionCone _ _ f) => some f
    | CostModel.CostModelResidual _ (ResidualModel.ContactWrenchCone _ _ f) => some f
    | CostModel.CostModelResidual _ (ResidualModel.ContactForce _ _ _ f) => some f
    | _ => none)

/-- Modelled from the spec: the default value of the argument `fwddyn` of the
contact-dependent residual models, whose headers are not at hand; the
docstring of the Python binding of the contact CoP position residual says
"(default True)". -/
def fwddynDefault : Bool := true

/-- The pairs of a friction-less contact-dynamics model type and its
`WithFriction` counterpart, for every robot and both contact-dynamics
families. -/
def frictionPairs : List (DifferentialActionModelTypes × DifferentialActionModelTypes) :=
  [(DifferentialActionModelTypes.DifferentialActionModelContactFwdDynamics_TalosArm,
    DifferentialActionModelTypes.DifferentialActionModelContactFwdDynamicsWithFriction_TalosArm),
   (DifferentialActionModelTypes.DifferentialActionModelContact2DFwdDynamics_TalosArm,
    DifferentialActionModelTypes.DifferentialActionModelContact2DFwdDynamicsWithFriction_TalosArm),
   (DifferentialActionModelTypes.DifferentialActionModelContactFwdDynamics_HyQ,
    DifferentialActionModelTypes.DifferentialActionModelContactFwdDynamicsWithFriction_HyQ),
   (DifferentialActionModelTypes.DifferentialActionModelContactFwdDynamics_Talos,
    DifferentialActionModelTypes.DifferentialActionModelContactFwdDynamicsWithFriction_Talos),
   (DifferentialActionModelTypes.DifferentialActionModelContactInvDynamics_TalosArm,
    DifferentialActionModelTypes.DifferentialActionModelContactInvDynamicsWithFriction_TalosArm),
   (DifferentialActionModelTypes.DifferentialActionModelContactInvDynamics_HyQ,
    DifferentialActionModelTypes.DifferentialActionModelContactInvDynamicsWithFriction_HyQ),
   (DifferentialActionModelTypes.DifferentialActionModelContactInvDynamics_Talos,
    DifferentialActionModelTypes.DifferentialActionModelContactInvDynamicsWithFriction_Talos)]

/-- The state type and the actuation type of the model that `create` returns
for a model type (none when `create` throws or the model is an LQR model). -/
def createdWith (env : FactoryEnv) (type : DifferentialActionModelTypes) :
    Option (StateModelTypes × ActuationModelTypes) :=
  match DifferentialActionModelFactory.create env type with
  | Except.ok a =>
    match a.state_type, a.actuation_type with
    | some st, some act => some (st, act)
    | _, _ => none
  | Except.error _ => none

/-! ## The Python binding of the contact CoP position residual

A shallow embedding of the class registration in
`bindings/python/crocoddyl/multibody/residuals/contact-cop-position.cpp`: the
two `__init__` signatures that it exposes. -/

/-- The state of a multibody system, as far as the binding's documentation
speaks of it: `state.nq` and `state.nv`. -/
structure StateMultibody where
  nq : Nat
  nv : Nat
deriving DecidableEq, Repr

/-- The support region of the CoP (class `CoPSupport`, declared elsewhere); its
contents play no role here. -/
structure CoPSupport where
  box : VectorXd
deriving DecidableEq, Repr

/-- A contact CoP position residual model: its state, frame id, support region,
control dimension, and the flag that tells forward dynamics (true) from inverse
dynamics (false). -/
structure ResidualModelContactCoPPosition where
  state : StateMultibody
  id : Nat
  cref : CoPSupport
  nu : Nat
  fwddyn : Bool
deriving DecidableEq, Repr

/-- Modelled from the spec: the C++ constructor
`ResidualModelContactCoPPosition(state, id, cref, nu, fwddyn)`, declared in a
header that is not at hand, following the docstring of its binding: `fwddyn`
"indicate[s] if we have a forward dynamics problem (True) or inverse dynamics
problem (False) (default True)".  The flag is `none` when the call leaves it
out. -/
def ResidualModelContactCoPPosition.withNu (state : StateMultibody) (id : Nat)
    (cref : CoPSupport) (nu : Nat) (fwddyn : Option Bool) :
    ResidualModelContactCoPPosition :=
  { state := state, id := id, cref := cref, nu := nu, fwddyn := fwddyn.getD true }

/-- Modelled from the spec: the C++ constructor
`ResidualModelContactCoPPosition(state, id, cref)`, declared in a header that
is not at hand, following the docstring of its binding: "The default nu is
obtained from state.nv.  Note that this constructor can be used for
forward-dynamics cases only." -/
def ResidualModelContactCoPPosition.withoutNu (state : StateMultibody) (id : Nat)
    (cref : CoPSupport) : ResidualModelContactCoPPosition :=
  { state := state, id := id, cref := cref, nu := state.nv, fwddyn := true }

/-- A Python argument of the constructor. -/
inductive PyValue where
  | StateMultibody (s : StateMultibody)
  | int (n : Nat)
  | CoPSupport (c : CoPSupport)
  | bool (b : Bool)
  | None
deriving DecidableEq, Repr

/-- The `__init__` of the Python class `ResidualModelContactCoPPosition`, as
`exposeResidualContactCoPPosition` registers it:
`bp::init<state, FrameIndex, CoPSupport, std::size_t, bp::optional<bool>>`
with arguments `(state, id, cref, nu, fwddyn)`, which accepts four or five
arguments, and `bp::init<state, FrameIndex, CoPSupport>` with arguments
`(state, id, cref)`.  Arguments that match neither signature raise an
argument error. -/
def ResidualModelContactCoPPosition.init (args : List PyValue) :
    Except Exception ResidualModelContactCoPPosition :=
  match args with
  | [PyValue.StateMultibody state, PyValue.int id, PyValue.CoPSupport cref] =>
    Except.ok (ResidualModelContactCoPPosition.withoutNu state id cref)
  | [PyValue.StateMultibody state, PyValue.int id, PyValue.CoPSupport cref,
      PyValue.int nu] =>
    Except.ok (ResidualModelContactCoPPosition.withNu state id cref nu none)
  | [PyValue.StateMultibody state, PyValue.int id, PyValue.CoPSupport cref,
      PyValue.int nu, PyValue.bool fwddyn] =>
    Except.ok (ResidualModelContactCoPPosition.withNu state id cref nu (some fwddyn))
  | _ => Except.error { what := "Boost.Python.ArgumentError" }

/-! ## Lemmas on the loops of `main` -/

theorem forLoop_thrown (body : Nat → MainState → MainState) (n i : Nat)
    (s : MainState) (h : s.thrown ≠ none) : forLoop body n i s = s := by
  cases n with
  | zero => rfl
  | succ n =>
    cases hs : s.thrown with
    | none => exact absurd hs h
    | some e => simp [forLoop, hs]

theorem forLoop_step (body : Nat → MainState → MainState) (n i : Nat)
    (s : MainState) (h : s.thrown = none) :
    forLoop body (n + 1) i s = forLoop body n (i + 1) (body i s) := by
  simp [forLoop, h]

theorem stmt_thrown (f : MainState → MainState) (s : MainState)
    (h : s.thrown ≠ none) : stmt f s = s := by
  cases hs : s.thrown with
  | none => exact absurd hs h
  | some e => simp [stmt, hs]

theorem stmt_run (f : MainState → MainState) (s : MainState)
    (h : s.thrown = none) : stmt f s = f s := by
  simp [stmt, h]

/-- A loop of `n` calls of one collaborator on the unchanged `xs`, `us`: it
makes `k ≤ n` identical calls, all `n` of them unless one throws. -/
theorem forLoop_callStmt (c : List VectorXd → List VectorXd → Call)
    (out : Nat → List VectorXd → List VectorXd → Option Exception) :
    ∀ (n i : Nat) (s : MainState), s.thrown = none →
      ∃ k, k ≤ n ∧
        (forLoop (callStmt c out) n i s).calls
          = s.calls ++ List.replicate k (c s.xs s.us) ∧
        (forLoop (callStmt c out) n i s).xs = s.xs ∧
        (forLoop (callStmt c out) n i s).us = s.us ∧
        ((forLoop (callStmt c out) n i s).thrown = none → k = n) ∧
        ((∀ j, j < n → out (i + j) s.xs s.us = none) →
          (forLoop (callStmt c out) n i s).thrown = none) := by
  intro n
  induction n with
  | zero =>
    intro i s hs
    exact ⟨0, le_refl 0, by simp [forLoop], rfl, rfl, fun _ => rfl, fun _ => hs⟩
  | succ n ih =>
    intro i s hs
    rw [forLoop_step _ _ _ _ hs]
    cases hout : out i s.xs s.us with
    | none =>
      have hs1 : (callStmt c out i s).thrown = none := by simp [callStmt, hout]
      obtain ⟨k, hk, hcalls, hxs, hus, hnone, hall⟩ := ih (i + 1) (callStmt c out i s) hs1
      refine ⟨k + 1, Nat.succ_le_succ hk, ?_, ?_, ?_, ?_, ?_⟩
      · rw [hcalls]
        simp [callStmt, List.replicate_succ]
      · rw [hxs]; rfl
      · rw [hus]; rfl
      · intro h; rw [hnone h]
      · intro h
        apply hall
        intro j hj
        have := h (j + 1) (Nat.succ_lt_succ hj)
        simpa [callStmt, Nat.add_assoc, Nat.add_comm 1 j] using this
    | some e =>
      have hs1 : (callStmt c out i s).thrown ≠ none := by simp [callStmt, hout]
      rw [forLoop_thrown _ _ _ _ hs1]
      refine ⟨1, Nat.succ_le_succ (Nat.zero_le n), ?_, rfl, rfl, ?_, ?_⟩
      · simp [callStmt]
      · intro h; simp [callStmt, hout] at h
      · intro h
        have := h 0 (Nat.succ_pos n)
        simp [hout] at this

theorem getD_set_ne (l : List VectorXd) (i j : Nat) (a : VectorXd) (h : i ≠ j) :
    (l.set i a).getD j [] = l.getD j [] := by
  simp [List.getD_eq_getElem?_getD, List.getElem?_set_ne h]

/-- The loop of lines 49-55 from stage `i` on, `n` stages remaining: either
every call returns and all `n` calls are made, or the call of some stage
`i + m` throws after the calls of stages `i .. i + m`, and the loop ends
there. -/
theorem forLoop_quasiStatic (env : Collaborators) (x0 : VectorXd)
    (z : Nat → VectorXd) :
    ∀ (n i : Nat) (s : MainState), s.thrown = none →
      (∀ j, i ≤ j → s.us.getD j [] = z j) →
      (forLoop (quasiStaticBody env x0) n i s).xs = s.xs ∧
      (forLoop (quasiStaticBody env x0) n i s).us.length = s.us.length ∧
      (((forLoop (quasiStaticBody env x0) n i s).thrown = none ∧
          (forLoop (quasiStaticBody env x0) n i s).calls
            = s.calls ++ (List.range' i n).map (qsCall x0 z) ∧
          ∀ j, i ≤ j → j < i + n → ∃ u, env.quasiStatic j (z j) x0 = Except.ok u) ∨
        ∃ m e, m < n ∧
          (forLoop (quasiStaticBody env x0) n i s).thrown = some e ∧
          (forLoop (quasiStaticBody env x0) n i s).calls
            = s.calls ++ (List.range' i (m + 1)).map (qsCall x0 z) ∧
          (∀ j, i ≤ j → j < i + m → ∃ u, env.quasiStatic j (z j) x0 = Except.ok u) ∧
          env.quasiStatic (i + m) (z (i + m)) x0 = Except.error e) := by
  intro n
  induction n with
  | zero =>
    intro i s hs _
    refine ⟨rfl, rfl, Or.inl ⟨hs, by simp [forLoop], ?_⟩⟩
    intro j h1 h2
    omega
  | succ n ih =>
    intro i s hs hz
    rw [forLoop_step _ _ _ _ hs]
    have hzi : s.us.getD i [] = z i := hz i (le_refl i)
    cases hq : env.quasiStatic i (z i) x0 with
    | error e =>
      have hbody : quasiStaticBody env x0 i s
          = { s with calls := s.calls ++ [qsCall x0 z i], thrown := some e } := by
        simp only [quasiStaticBody, hzi, hq, qsCall]
      have hthr : (quasiStaticBody env x0 i s).thrown ≠ none := by
        rw [hbody]; simp
      rw [forLoop_thrown _ _ _ _ hthr, hbody]
      refine ⟨rfl, rfl, Or.inr ⟨0, e, Nat.succ_pos n, rfl, ?_, ?_, ?_⟩⟩
      · simp [List.range']
      · intro j h1 h2; omega
      · simpa using hq
    | ok u1 =>
      have hbody : quasiStaticBody env x0 i s
          = { s with calls := s.calls ++ [qsCall x0 z i], us := s.us.set i u1 } := by
        simp only [quasiStaticBody, hzi, hq, qsCall]
      have hthr : (quasiStaticBody env x0 i s).thrown = none := by
        rw [hbody]; exact hs
      have hz1 : ∀ j, i + 1 ≤ j → (quasiStaticBody env x0 i s).us.getD j [] = z j := by
        intro j hj
        rw [hbody]
        show (s.us.set i u1).getD j [] = z j
        rw [getD_set_ne _ _ _ _ (by omega)]
        exact hz j (by omega)
      obtain ⟨hxs, hlen, hcase⟩ := ih (i + 1) (quasiStaticBody env x0 i s) hthr hz1
      refine ⟨?_, ?_, ?_⟩
      · rw [hxs, hbody]
      · rw [hlen, hbody]; simp
      · rcases hcase with ⟨hnone, hcalls, hok⟩ | ⟨m, e, hm, hsome, hcalls, hok, herr⟩
        · refine Or.inl ⟨hnone, ?_, ?_⟩
          · rw [hcalls, hbody]
            simp [List.range'_succ]
          · intro j h1 h2
            rcases Nat.eq_or_lt_of_le h1 with h | h
            · subst h; exact ⟨u1, hq⟩
            · exact hok j h (by omega)
        · refine Or.inr ⟨m + 1, e, Nat.succ_lt_succ hm, hsome, ?_, ?_, ?_⟩
          · rw [hcalls, hbody]
            simp [List.range'_succ]
          · intro j h1 h2
            rcases Nat.eq_or_lt_of_le h1 with h | h
            · subst h; exact ⟨u1, hq⟩
            · exact hok j h (by omega)
          · have : i + (m + 1) = i + 1 + m := by omega
            rw [this]; exact herr

/-- A loop of calls from any state: no call at all when an exception is
already in flight. -/
theorem forLoop_callStmt_any (c : List VectorXd → List VectorXd → Call)
    (out : Nat → List VectorXd → List VectorXd → Option Exception)
    (n : Nat) (s : MainState) :
    ∃ k, k ≤ n ∧
      (forLoop (callStmt c out) n 0 s).calls
        = s.calls ++ List.replicate k (c s.xs s.us) ∧
      (forLoop (callStmt c out) n 0 s).xs = s.xs ∧
      (forLoop (callStmt c out) n 0 s).us = s.us ∧
      ((forLoop (callStmt c out) n 0 s).thrown = none → k = n ∧ s.thrown = none) ∧
      (0 < k → s.thrown = none) ∧
      (s.thrown = none → (∀ j, j < n → out j s.xs s.us = none) →
        (forLoop (callStmt c out) n 0 s).thrown = none) := by
  cases hs : s.thrown with
  | some e =>
    have hne : s.thrown ≠ none := by simp [hs]
    rw [forLoop_thrown _ _ _ _ hne]
    refine ⟨0, Nat.zero_le n, by simp, rfl, rfl, ?_, ?_, ?_⟩
    · intro h; rw [hs] at h; simp at h
    · intro h; exact absurd h (lt_irrefl 0)
    · intro h; simp at h
  | none =>
    obtain ⟨k, hk, hcalls, hxs, hus, hnone, hall⟩ := forLoop_callStmt c out n 0 s hs
    refine ⟨k, hk, hcalls, hxs, hus, fun h => ⟨hnone h, rfl⟩, fun _ => rfl, ?_⟩
    intro _ h
    apply hall
    intro j hj
    simpa using h j hj

/-- The three timed loops make `k1 ≤ T` calls of `solve`, then `k2 ≤ T` calls
of `calc`, then `k3 ≤ T` calls of `calcDiff`, all on the `xs`, `us` they start
with; a loop is entered only when the one before it ran all its `T`
iterations. -/
theorem timedLoops_shape (env : Collaborators) (T MAXITER : Nat) (s : MainState) :
    ∃ k1 k2 k3, k1 ≤ T ∧ k2 ≤ T ∧ k3 ≤ T ∧
      (timedLoops env T MAXITER s).calls
        = s.calls ++ timedCalls s.xs s.us MAXITER k1 k2 k3 ∧
      (timedLoops env T MAXITER s).xs = s.xs ∧
      (timedLoops env T MAXITER s).us = s.us ∧
      (0 < k1 → s.thrown = none) ∧
      (0 < k2 → k1 = T ∧ s.thrown = none) ∧
      (0 < k3 → k2 = T ∧ k1 = T ∧ s.thrown = none) ∧
      ((timedLoops env T MAXITER s).thrown = none →
        k1 = T ∧ k2 = T ∧ k3 = T ∧ s.thrown = none) ∧
      (s.thrown = none →
        (∀ j, j < T → env.solveThrows j s.xs s.us MAXITER false (1 / 10) = none) →
        (∀ j, j < T → env.calcThrows j s.xs s.us = none) →
        (∀ j, j < T → env.calcDiffThrows j s.xs s.us = none) →
        (timedLoops env T MAXITER s).thrown = none) := by
  obtain ⟨k1, h1, c1, x1, u1, n1, p1, a1⟩ :=
    forLoop_callStmt_any (fun xs us => Call.solve xs us MAXITER false (1 / 10))
      (fun i xs us => env.solveThrows i xs us MAXITER false (1 / 10)) T s
  obtain ⟨k2, h2, c2, x2, u2, n2, p2, a2⟩ :=
    forLoop_callStmt_any Call.calc env.calcThrows T
      (forLoop (callStmt (fun xs us => Call.solve xs us MAXITER false (1 / 10))
        (fun i xs us => env.solveThrows i xs us MAXITER false (1 / 10))) T 0 s)
  obtain ⟨k3, h3, c3, x3, u3, n3, p3, a3⟩ :=
    forLoop_callStmt_any Call.calcDiff env.calcDiffThrows T
      (forLoop (callStmt Call.calc env.calcThrows) T 0
        (forLoop (callStmt (fun xs us => Call.solve xs us MAXITER false (1 / 10))
          (fun i xs us => env.solveThrows i xs us MAXITER false (1 / 10))) T 0 s))
  rw [x2, x1] at c3
  rw [u2, u1] at c3
  rw [x1, u1] at c2
  refine ⟨k1, k2, k3, h1, h2, h3, ?_, ?_, ?_, p1, ?_, ?_, ?_, ?_⟩
  · unfold timedLoops timedCalls
    rw [c3, c2, c1]
    simp [List.append_assoc]
  · unfold timedLoops
    rw [x3, x2, x1]
  · unfold timedLoops
    rw [u3, u2, u1]
  · intro h
    exact n1 (p2 h)
  · intro h
    have hk2 := n2 (p3 h)
    exact ⟨hk2.1, n1 hk2.2⟩
  · intro h
    have hk3 := n3 h
    have hk2 := n2 hk3.2
    have hk1 := n1 hk2.2
    exact ⟨hk1.1, hk2.1, hk3.1, hk1.2⟩
  · intro hs ha hb hc
    have t1 := a1 hs ha
    have t2 := a2 t1 (by rw [x1, u1]; exact hb)
    exact a3 t2 (by rw [x2, u2, x1, u1]; exact hc)

theorem mainBody_eq (env : Collaborators) (N T MAXITER : Nat) :
    mainBody env N T MAXITER
      = timedLoops env T MAXITER
          (stmt (fun s =>
              if CALLBACKS then { s with calls := s.calls ++ [Call.setCallbacks] } else s)
            (stmt (fun s => { s with calls := s.calls ++ [Call.SolverFDDP] })
              (forLoop (quasiStaticBody env env.x0) N 0
                { xs := List.replicate (N + 1) env.x0
                  us := List.replicate N (VectorXd.Zero env.nu)
                  calls := [problemCall env N]
                  thrown := none }))) := rfl

theorem map_qsCall_range (env : Collaborators) (N k : Nat) (hk : k ≤ N) :
    (List.range' 0 k).map
        (qsCall env.x0 (fun j => (List.replicate N (VectorXd.Zero env.nu)).getD j []))
      = qsCalls env k := by
  unfold qsCalls
  rw [List.range_eq_range']
  apply List.map_congr_left
  intro j hj
  have hj1 : j < k := by simpa using hj
  have hj2 : j < N := lt_of_lt_of_le hj1 hk
  simp [qsCall, List.getD_eq_getElem?_getD, List.getElem?_replicate, hj2]

/-- The statements after the `quasiStatic` loop, when no exception is in
flight: the solver is constructed, no callback is set, and the timed loops
run. -/
theorem afterInit_shape (env : Collaborators) (T MAXITER : Nat) (s1 : MainState)
    (h : s1.thrown = none) :
    ∃ k1 k2 k3, k1 ≤ T ∧ k2 ≤ T ∧ k3 ≤ T ∧
      (timedLoops env T MAXITER
          (stmt (fun s =>
              if CALLBACKS then { s with calls := s.calls ++ [Call.setCallbacks] } else s)
            (stmt (fun s => { s with calls := s.calls ++ [Call.SolverFDDP] }) s1))).calls
        = s1.calls ++ Call.SolverFDDP :: timedCalls s1.xs s1.us MAXITER k1 k2 k3 ∧
      (timedLoops env T MAXITER
          (stmt (fun s =>
              if CALLBACKS then { s with calls := s.calls ++ [Call.setCallbacks] } else s)
            (stmt (fun s => { s with calls := s.calls ++ [Call.SolverFDDP] }) s1))).xs
        = s1.xs ∧
      (timedLoops env T MAXITER
          (stmt (fun s =>
              if CALLBACKS then { s with calls := s.calls ++ [Call.setCallbacks] } else s)
            (stmt (fun s => { s with calls := s.calls ++ [Call.SolverFDDP] }) s1))).us
        = s1.us ∧
      (0 < k2 → k1 = T) ∧ (0 < k3 → k2 = T ∧ k1 = T) ∧
      ((timedLoops env T MAXITER
          (stmt (fun s =>
              if CALLBACKS then { s with calls := s.calls ++ [Call.setCallbacks] } else s)
            (stmt (fun s => { s with calls := s.calls ++ [Call.SolverFDDP] }) s1))).thrown
          = none → k1 = T ∧ k2 = T ∧ k3 = T) ∧
      ((∀ j, j < T → env.solveThrows j s1.xs s1.us MAXITER false (1 / 10) = none) →
        (∀ j, j < T → env.calcThrows j s1.xs s1.us = none) →
        (∀ j, j < T → env.calcDiffThrows j s1.xs s1.us = none) →
        (timedLoops env T MAXITER
          (stmt (fun s =>
              if CALLBACKS then { s with calls := s.calls ++ [Call.setCallbacks] } else s)
            (stmt (fun s => { s with calls := s.calls ++ [Call.SolverFDDP] }) s1))).thrown
          = none) := by
  rw [stmt_run _ s1 h]
  have h2 : ({ s1 with calls := s1.calls ++ [Call.SolverFDDP] } : MainState).thrown = none := h
  rw [stmt_run _ _ h2]
  simp only [CALLBACKS, Bool.false_eq_true, if_false]
  obtain ⟨k1, k2, k3, h1, h2, h3, tc, tx, tu, _, p2, p3, tn, ta⟩ :=
    timedLoops_shape env T MAXITER { s1 with calls := s1.calls ++ [Call.SolverFDDP] }
  refine ⟨k1, k2, k3, h1, h2, h3, ?_, tx, tu, fun h => (p2 h).1,
    fun h => ⟨(p3 h).1, (p3 h).2.1⟩, fun h => ⟨(tn h).1, (tn h).2.1, (tn h).2.2.1⟩, ta h⟩
  rw [tc]
  simp

/-- Shape of a run of `mainBody`.  Either every `quasiStatic` call returns:
then the calls are the construction of the problem, the `N` `quasiStatic`
calls, the construction of the solver, and the calls of the timed loops, all
on one `xs`, `us`.  Or the `quasiStatic` call of some stage `m` throws: then
nothing is called after it. -/
theorem mainBody_shape (env : Collaborators) (N T MAXITER : Nat) :
    (mainBody env N T MAXITER).xs = List.replicate (N + 1) env.x0 ∧
    (mainBody env N T MAXITER).us.length = N ∧
    (((∀ j, j < N → ∃ u, env.quasiStatic j (VectorXd.Zero env.nu) env.x0 = Except.ok u) ∧
        ∃ k1 k2 k3, k1 ≤ T ∧ k2 ≤ T ∧ k3 ≤ T ∧
          (mainBody env N T MAXITER).calls
            = problemCall env N :: (qsCalls env N ++ Call.SolverFDDP ::
                timedCalls (List.replicate (N + 1) env.x0)
                  (mainBody env N T MAXITER).us MAXITER k1 k2 k3) ∧
          (0 < k2 → k1 = T) ∧ (0 < k3 → k2 = T ∧ k1 = T) ∧
          ((mainBody env N T MAXITER).thrown = none → k1 = T ∧ k2 = T ∧ k3 = T) ∧
          ((∀ j, j < T → env.solveThrows j (List.replicate (N + 1) env.x0)
                (mainBody env N T MAXITER).us MAXITER false (1 / 10) = none) →
            (∀ j, j < T → env.calcThrows j (List.replicate (N + 1) env.x0)
                (mainBody env N T MAXITER).us = none) →
            (∀ j, j < T → env.calcDiffThrows j (List.replicate (N + 1) env.x0)
                (mainBody env N T MAXITER).us = none) →
            (mainBody env N T MAXITER).thrown = none)) ∨
      ∃ m e, m < N ∧
        (mainBody env N T MAXITER).thrown = some e ∧
        (mainBody env N T MAXITER).calls = problemCall env N :: qsCalls env (m + 1) ∧
        (∀ j, j < m → ∃ u, env.quasiStatic j (VectorXd.Zero env.nu) env.x0 = Except.ok u) ∧
        env.quasiStatic m (VectorXd.Zero env.nu) env.x0 = Except.error e) := by
  have hz : ∀ j, j < N →
      (List.replicate N (VectorXd.Zero env.nu)).getD j [] = VectorXd.Zero env.nu := by
    intro j hj
    simp [List.getD_eq_getElem?_getD, List.getElem?_replicate, hj]
  obtain ⟨hxs, hlen, hcase⟩ := forLoop_quasiStatic env env.x0
    (fun j => (List.replicate N (VectorXd.Zero env.nu)).getD j []) N 0
    { xs := List.replicate (N + 1) env.x0
      us := List.replicate N (VectorXd.Zero env.nu)
      calls := [problemCall env N]
      thrown := none } rfl (fun j _ => rfl)
  rw [mainBody_eq]
  dsimp only at hxs hlen hcase
  rw [List.length_replicate] at hlen
  generalize forLoop (quasiStaticBody env env.x0) N 0
    { xs := List.replicate (N + 1) env.x0
      us := List.replicate N (VectorXd.Zero env.nu)
      calls := [problemCall env N]
      thrown := none } = s1 at hxs hlen hcase ⊢
  rcases hcase with ⟨hnone, hcalls, hok⟩ | ⟨m, e, hm, hsome, hcalls, hok, herr⟩
  · -- every quasiStatic call returns
    rw [map_qsCall_range env N N (le_refl N)] at hcalls
    obtain ⟨k1, k2, k3, h1, h2, h3, tc, tx, tu, p2, p3, tn, ta⟩ :=
      afterInit_shape env T MAXITER s1 hnone
    rw [tx, tu, tc, hxs, hcalls]
    rw [hxs] at ta
    refine ⟨rfl, hlen, Or.inl ⟨?_, k1, k2, k3, h1, h2, h3, ?_, p2, p3, tn, ta⟩⟩
    · intro j hj
      have := hok j (Nat.zero_le j) (by omega)
      rwa [hz j hj] at this
    · simp
  · -- the quasiStatic call of stage m throws
    have hne : s1.thrown ≠ none := by rw [hsome]; simp
    rw [stmt_thrown _ _ hne, stmt_thrown _ _ hne]
    unfold timedLoops
    rw [forLoop_thrown _ _ _ _ hne, forLoop_thrown _ _ _ _ hne, forLoop_thrown _ _ _ _ hne]
    rw [map_qsCall_range env N (m + 1) hm] at hcalls
    refine ⟨hxs, hlen, Or.inr ⟨m, e, hm, hsome, by simpa using hcalls, ?_, ?_⟩⟩
    · intro j hj
      have := hok j (Nat.zero_le j) (by omega)
      rwa [hz j (by omega)] at this
    · have := herr
      simp only [Nat.zero_add] at this
      rwa [hz m hm] at this

theorem mem_qsCalls (env : Collaborators) (k : Nat) (c : Call) (h : c ∈ qsCalls env k) :
    ∃ j, j < k ∧ c = Call.quasiStatic j j j (VectorXd.Zero env.nu) env.x0 := by
  unfold qsCalls at h
  rw [List.mem_map] at h
  obtain ⟨j, hj, rfl⟩ := h
  exact ⟨j, by simpa using hj, rfl⟩

theorem mem_timedCalls (xs us : List VectorXd) (MAXITER k1 k2 k3 : Nat) (c : Call)
    (h : c ∈ timedCalls xs us MAXITER k1 k2 k3) :
    c = Call.solve xs us MAXITER false (1 / 10) ∨ c = Call.calc xs us ∨
      c = Call.calcDiff xs us := by
  unfold timedCalls at h
  rw [List.mem_append, List.mem_append] at h
  rcases h with h | h | h
  · exact Or.inl (List.eq_of_mem_replicate h)
  · exact Or.inr (Or.inl (List.eq_of_mem_replicate h))
  · exact Or.inr (Or.inr (List.eq_of_mem_replicate h))

/-- Every call of a run of `mainBody` is the construction of the problem, a
`quasiStatic` call of some stage, the construction of the solver, or a timed
call on the final `xs`, `us`. -/
theorem mainBody_calls_mem (env : Collaborators) (N T MAXITER : Nat) (c : Call)
    (h : c ∈ (mainBody env N T MAXITER).calls) :
    c = problemCall env N ∨
    (∃ j, j < N ∧ c = Call.quasiStatic j j j (VectorXd.Zero env.nu) env.x0) ∨
    c = Call.SolverFDDP ∨
    c = Call.solve (mainBody env N T MAXITER).xs (mainBody env N T MAXITER).us
          MAXITER false (1 / 10) ∨
    c = Call.calc (mainBody env N T MAXITER).xs (mainBody env N T MAXITER).us ∨
    c = Call.calcDiff (mainBody env N T MAXITER).xs (mainBody env N T MAXITER).us := by
  obtain ⟨hxs, _, hcase⟩ := mainBody_shape env N T MAXITER
  rcases hcase with ⟨_, k1, k2, k3, _, _, _, hcalls, _⟩ | ⟨m, e, hm, _, hcalls, _⟩
  · rw [hcalls] at h
    rw [hxs]
    rcases List.mem_cons.mp h with h | h
    · exact Or.inl h
    · rcases List.mem_append.mp h with h | h
      · obtain ⟨j, hj, hc⟩ := mem_qsCalls env N c h
        exact Or.inr (Or.inl ⟨j, hj, hc⟩)
      · rcases List.mem_cons.mp h with h | h
        · exact Or.inr (Or.inr (Or.inl h))
        · exact Or.inr (Or.inr (Or.inr (mem_timedCalls _ _ _ _ _ _ c h)))
  · rw [hcalls] at h
    rcases List.mem_cons.mp h with h | h
    · exact Or.inl h
    · obtain ⟨j, hj, hc⟩ := mem_qsCalls env (m + 1) c h
      exact Or.inr (Or.inl ⟨j, by omega, hc⟩)

/-! ## The initial guess of the benchmark (C1) -/

/-- C1: for every node count `N`, the initial guess of the benchmark has
exactly `N + 1` states and `N` controls, every control is created as a vector
of dimension `runningModel->get_nu()`, the problem is built from exactly `N`
running models, and every call of `solve`, `calc` and `calcDiff` is given
`N + 1` states and `N` controls, so that `len(states) == len(controls) + 1`;
`main` is the case `N = 100`. -/
theorem initial_guess_lengths (env : Collaborators) (N T MAXITER : Nat) :
    (initialGuess env N).xs.length = N + 1 ∧
    (initialGuess env N).us.length = N ∧
    (∀ u, u ∈ (initialGuess env N).us → u.length = env.nu) ∧
    Call.ShootingProblem env.x0 (List.replicate N ModelRef.runningModel)
        ModelRef.terminalModel ∈ (mainBody env N T MAXITER).calls ∧
    (∀ x0 rms tm, Call.ShootingProblem x0 rms tm ∈ (mainBody env N T MAXITER).calls →
      rms.length = N) ∧
    (∀ c xs us, c ∈ (mainBody env N T MAXITER).calls → c.trajectory = some (xs, us) →
      xs.length = N + 1 ∧ us.length = N ∧ xs.length = us.length + 1) ∧
    (∀ a c xs us, c ∈ (main env a).calls → c.trajectory = some (xs, us) →
      xs.length = 101 ∧ us.length = 100) := by
  have key : ∀ (N T MAXITER : Nat) (c : Call) (xs us : List VectorXd),
      c ∈ (mainBody env N T MAXITER).calls → c.trajectory = some (xs, us) →
      xs.length = N + 1 ∧ us.length = N := by
    intro N T MAXITER c xs us hc htraj
    obtain ⟨hxs, hlen, _⟩ := mainBody_shape env N T MAXITER
    have hx : (mainBody env N T MAXITER).xs.length = N + 1 := by rw [hxs]; simp
    rcases mainBody_calls_mem env N T MAXITER c hc with h | ⟨j, _, h⟩ | h | h | h | h <;>
      subst h <;> simp [Call.trajectory, problemCall] at htraj <;>
      obtain ⟨h1, h2⟩ := htraj <;> subst h1 <;> subst h2 <;> exact ⟨hx, hlen⟩
  refine ⟨by simp [initialGuess], by simp [initialGuess], ?_, ?_, ?_, ?_, ?_⟩
  · intro u hu
    have := List.eq_of_mem_replicate hu
    rw [this]
    simp [VectorXd.Zero]
  · obtain ⟨_, _, hcase⟩ := mainBody_shape env N T MAXITER
    rcases hcase with ⟨_, k1, k2, k3, _, _, _, hcalls, _⟩ | ⟨m, e, hm, _, hcalls, _⟩ <;>
      rw [hcalls] <;> exact List.mem_cons_self _ _
  · intro x0 rms tm h
    rcases mainBody_calls_mem env N T MAXITER _ h with h | ⟨j, _, h⟩ | h | h | h | h
    · simp only [problemCall, Call.ShootingProblem.injEq] at h
      rw [h.2.1]; simp
    all_goals exact absurd h (by simp)
  · intro c xs us hc htraj
    obtain ⟨h1, h2⟩ := key N T MAXITER c xs us hc htraj
    exact ⟨h1, h2, by rw [h1, h2]⟩
  · intro a c xs us hc htraj
    exact key 100 (trials a) 1 c xs us hc htraj

/-- Witness for C1: in a run with two nodes, the `calc` call is given three
states and two controls. -/
theorem initial_guess_lengths_witness :
    Call.calc (List.replicate 3 [1, 0, 0, 0]) (List.replicate 2 [0, 0])
      ∈ (mainBody exampleEnv 2 1 1).calls ∧
    (List.replicate 3 ([1, 0, 0, 0] : VectorXd)).length = 2 + 1 ∧
    (List.replicate 2 ([0, 0] : VectorXd)).length = 2 :=
  ⟨by decide,
   ((initial_guess_lengths exampleEnv 2 1 1).2.2.2.2.2.1
      (Call.calc (List.replicate 3 [1, 0, 0, 0]) (List.replicate 2 [0, 0]))
      (List.replicate 3 [1, 0, 0, 0]) (List.replicate 2 [0, 0]) (by decide) rfl).1,
   ((initial_guess_lengths exampleEnv 2 1 1).2.2.2.2.2.1
      (Call.calc (List.replicate 3 [1, 0, 0, 0]) (List.replicate 2 [0, 0]))
      (List.replicate 3 [1, 0, 0, 0]) (List.replicate 2 [0, 0]) (by decide) rfl).2.1⟩

theorem count_qsCalls_eq_zero (env : Collaborators) (k : Nat) (c : Call)
    (hc : ∀ j, c ≠ Call.quasiStatic j j j (VectorXd.Zero env.nu) env.x0) :
    (qsCalls env k).count c = 0 := by
  rw [List.count_eq_zero]
  intro h
  obtain ⟨j, _, hj⟩ := mem_qsCalls env k c h
  exact hc j hj

/-- Splitting a list `A ++ B` at an element that does not occur in `A`. -/
theorem split_after (p : Call → Prop) (A B pre post : List Call) (d : Call)
    (hA : ∀ a, a ∈ A → ¬ p a) (hd : p d) (h : A ++ B = pre ++ d :: post) :
    ∃ B1, pre = A ++ B1 ∧ B = B1 ++ d :: post := by
  rcases List.append_eq_append_iff.mp h with ⟨a1, h1, h2⟩ | ⟨c1, h1, h2⟩
  · exact ⟨a1, h1, h2⟩
  · cases c1 with
    | nil =>
      refine ⟨[], ?_, ?_⟩
      · simpa using h1.symm
      · simpa using h2.symm
    | cons x c2 =>
      have hx : d = x := by
        have := congrArg List.head? h2
        simpa using this
      have : x ∈ A := by rw [h1]; simp
      exact absurd (hx ▸ hd) (hA x this)

/-! ## `calcDiff` only after `calc` (C3) -/

/-- C3: in every run of the benchmark, wherever a call
`problem->calcDiff(xs, us)` occurs, the calls before it include all `T` calls
`problem->calc(xs, us)` on the same `xs` and `us`, every earlier `solve`,
`calc` or `calcDiff` call was given that same `xs` and `us`, and no `calc` call
comes after it. -/
theorem calcDiff_only_after_calc (env : Collaborators) (N T MAXITER : Nat)
    (pre post : List Call) (xs us : List VectorXd)
    (h : (mainBody env N T MAXITER).calls = pre ++ Call.calcDiff xs us :: post) :
    Call.calc xs us ∈ pre ∧
    pre.count (Call.calc xs us) = T ∧
    (∀ c xs1 us1, c ∈ pre → c.trajectory = some (xs1, us1) → xs1 = xs ∧ us1 = us) ∧
    (∀ xs1 us1, Call.calc xs1 us1 ∉ post) := by
  obtain ⟨hxs, _, hcase⟩ := mainBody_shape env N T MAXITER
  have hmem : Call.calcDiff xs us ∈ (mainBody env N T MAXITER).calls := by
    rw [h]; simp
  rcases hcase with ⟨_, k1, k2, k3, _, _, h3, hcalls, _, p3, _⟩ | ⟨m, e, hm, _, hcalls, _⟩
  · -- the run reaches the timed loops
    have hsplit : (problemCall env N :: (qsCalls env N ++ Call.SolverFDDP ::
          (List.replicate k1 (Call.solve (List.replicate (N + 1) env.x0)
              (mainBody env N T MAXITER).us MAXITER false (1 / 10)) ++
            List.replicate k2 (Call.calc (List.replicate (N + 1) env.x0)
              (mainBody env N T MAXITER).us)))) ++
        List.replicate k3 (Call.calcDiff (List.replicate (N + 1) env.x0)
              (mainBody env N T MAXITER).us)
        = pre ++ Call.calcDiff xs us :: post := by
      rw [← h, hcalls]
      simp [timedCalls]
    obtain ⟨B1, hpre, hB⟩ := split_after (fun c => ∃ a b, c = Call.calcDiff a b) _ _ _ _ _
      (by
        intro a ha
        rintro ⟨x, y, rfl⟩
        rcases List.mem_cons.mp ha with ha | ha
        · simp [problemCall] at ha
        · rcases List.mem_append.mp ha with ha | ha
          · obtain ⟨j, _, hj⟩ := mem_qsCalls env N _ ha
            simp at hj
          · rcases List.mem_cons.mp ha with ha | ha
            · simp at ha
            · rcases List.mem_append.mp ha with ha | ha
              · have := List.eq_of_mem_replicate ha
                simp at this
              · have := List.eq_of_mem_replicate ha
                simp at this)
      ⟨xs, us, rfl⟩ hsplit
    have hd : Call.calcDiff xs us ∈ List.replicate k3 (Call.calcDiff
        (List.replicate (N + 1) env.x0) (mainBody env N T MAXITER).us) := by
      rw [hB]; simp
    have hk3 : 0 < k3 := by
      rcases Nat.eq_zero_or_pos k3 with h0 | h0
      · rw [h0] at hd; simp at hd
      · exact h0
    have hdeq := List.eq_of_mem_replicate hd
    simp only [Call.calcDiff.injEq] at hdeq
    obtain ⟨hx, hu⟩ := hdeq
    have hk2 : k2 = T := (p3 hk3).1
    have hB1 : ∀ c, c ∈ B1 → c = Call.calcDiff xs us := by
      intro c hc
      have : c ∈ List.replicate k3 (Call.calcDiff
          (List.replicate (N + 1) env.x0) (mainBody env N T MAXITER).us) := by
        rw [hB]; simp [hc]
      rw [List.eq_of_mem_replicate this, hx, hu]
    have hpost : ∀ c, c ∈ post → c = Call.calcDiff xs us := by
      intro c hc
      have : c ∈ List.replicate k3 (Call.calcDiff
          (List.replicate (N + 1) env.x0) (mainBody env N T MAXITER).us) := by
        rw [hB]; simp [hc]
      rw [List.eq_of_mem_replicate this, hx, hu]
    have hcount : pre.count (Call.calc xs us) = T := by
      rw [hpre, ← hx, ← hu]
      have hq := count_qsCalls_eq_zero env N (Call.calc xs us) (by intro j; simp)
      have hb : List.count (Call.calc xs us) B1 = 0 := by
        rw [List.count_eq_zero]
        intro hc
        have := hB1 _ hc
        simp at this
      simp [List.count_cons, List.count_append, List.count_replicate, hq, hb,
        problemCall, hk2]
    refine ⟨?_, hcount, ?_, ?_⟩
    · have hT : 0 < T := lt_of_lt_of_le hk3 h3
      have : 0 < pre.count (Call.calc xs us) := by rw [hcount]; exact hT
      exact List.count_pos_iff.mp this
    · intro c xs1 us1 hc htraj
      have hcm : c ∈ (mainBody env N T MAXITER).calls := by rw [h]; simp [hc]
      rw [hx, hu, ← hxs]
      rcases mainBody_calls_mem env N T MAXITER c hcm with hc | ⟨j, _, hc⟩ | hc | hc | hc | hc <;>
        subst hc <;> simp [Call.trajectory, problemCall] at htraj <;>
        exact ⟨htraj.1.symm, htraj.2.symm⟩
    · intro xs1 us1 hc
      have := hpost _ hc
      simp at this
  · -- a quasiStatic call throws: no calcDiff call at all
    rw [hcalls] at hmem
    rcases List.mem_cons.mp hmem with hc | hc
    · simp [problemCall] at hc
    · obtain ⟨j, _, hj⟩ := mem_qsCalls env (m + 1) _ hc
      simp at hj

/-- Witness for C3: a run with one node and two trials, split at its first
`calcDiff` call. -/
theorem calcDiff_only_after_calc_witness :
    (mainBody exampleEnv 1 2 1).calls
      = [problemCall exampleEnv 1,
         Call.quasiStatic 0 0 0 [0, 0] [1, 0, 0, 0],
         Call.SolverFDDP,
         Call.solve [[1, 0, 0, 0], [1, 0, 0, 0]] [[0, 0]] 1 false (1 / 10),
         Call.solve [[1, 0, 0, 0], [1, 0, 0, 0]] [[0, 0]] 1 false (1 / 10),
         Call.calc [[1, 0, 0, 0], [1, 0, 0, 0]] [[0, 0]],
         Call.calc [[1, 0, 0, 0], [1, 0, 0, 0]] [[0, 0]]]
        ++ Call.calcDiff [[1, 0, 0, 0], [1, 0, 0, 0]] [[0, 0]]
          :: [Call.calcDiff [[1, 0, 0, 0], [1, 0, 0, 0]] [[0, 0]]] ∧
    List.count (Call.calc [[1, 0, 0, 0], [1, 0, 0, 0]] [[0, 0]])
        [problemCall exampleEnv 1,
         Call.quasiStatic 0 0 0 [0, 0] [1, 0, 0, 0],
         Call.SolverFDDP,
         Call.solve [[1, 0, 0, 0], [1, 0, 0, 0]] [[0, 0]] 1 false (1 / 10),
         Call.solve [[1, 0, 0, 0], [1, 0, 0, 0]] [[0, 0]] 1 false (1 / 10),
         Call.calc [[1, 0, 0, 0], [1, 0, 0, 0]] [[0, 0]],
         Call.calc [[1, 0, 0, 0], [1, 0, 0, 0]] [[0, 0]]] = 2 :=
  ⟨rfl, (calcDiff_only_after_calc exampleEnv 1 2 1 _ _ _ _ rfl).2.1⟩

/-! ## `quasiStatic` in the benchmark (C8, C9) -/

/-- C8: `quasiStatic` is used only for the initialization of the trajectory.
The calls of a run of the benchmark are the construction of the problem, then
the `quasiStatic` calls of stages `0 .. k-1` in order, one per stage, each with
the stage's own model and data record (index `i` in both), `us[i]` (still the
zero vector) as the control output and `x0` as the state, and then calls none
of which is a `quasiStatic` call.  Anything called after them starts with the
construction of the solver and comes after all `N` of them, and `k = N`
whenever every `quasiStatic` call returns. -/
theorem quasiStatic_only_initialization (env : Collaborators) (N T MAXITER : Nat) :
    ∃ k rest, k ≤ N ∧
      (mainBody env N T MAXITER).calls
        = problemCall env N ::
            ((List.range k).map
                (fun i => Call.quasiStatic i i i (VectorXd.Zero env.nu) env.x0) ++ rest) ∧
      (∀ c, c ∈ rest → c = Call.SolverFDDP ∨ c.trajectory ≠ none) ∧
      (rest ≠ [] → k = N ∧ rest.head? = some Call.SolverFDDP) ∧
      ((∀ j, j < N → ∃ u, env.quasiStatic j (VectorXd.Zero env.nu) env.x0 = Except.ok u) →
        k = N ∧ rest.head? = some Call.SolverFDDP) := by
  obtain ⟨_, _, hcase⟩ := mainBody_shape env N T MAXITER
  rcases hcase with ⟨_, k1, k2, k3, _, _, _, hcalls, _⟩ | ⟨m, e, hm, _, hcalls, hok, herr⟩
  · refine ⟨N, Call.SolverFDDP :: timedCalls (List.replicate (N + 1) env.x0)
      (mainBody env N T MAXITER).us MAXITER k1 k2 k3, le_refl N, hcalls, ?_,
      fun _ => ⟨rfl, rfl⟩, fun _ => ⟨rfl, rfl⟩⟩
    intro c hc
    rcases List.mem_cons.mp hc with hc | hc
    · exact Or.inl hc
    · right
      rcases mem_timedCalls _ _ _ _ _ _ c hc with h | h | h <;> subst h <;>
        simp [Call.trajectory]
  · refine ⟨m + 1, [], hm, ?_, ?_, ?_, ?_⟩
    · rw [hcalls]; simp [qsCalls, qsCall]
    · intro c hc; simp at hc
    · intro h; exact absurd rfl h
    · intro h
      obtain ⟨u, hu⟩ := h m hm
      rw [herr] at hu
      cases hu

/-- Witness for C8: a run in which every `quasiStatic` call returns makes the
`quasiStatic` calls of all stages, before the solver is constructed. -/
theorem quasiStatic_only_initialization_witness :
    ∃ k rest, k ≤ 2 ∧
      (mainBody exampleEnv 2 1 1).calls
        = problemCall exampleEnv 2 ::
            ((List.range k).map
                (fun i => Call.quasiStatic i i i (VectorXd.Zero exampleEnv.nu)
                  exampleEnv.x0) ++ rest) ∧
      k = 2 ∧ rest.head? = some Call.SolverFDDP := by
  obtain ⟨k, rest, hk, hcalls, _, _, hall⟩ :=
    quasiStatic_only_initialization exampleEnv 2 1 1
  exact ⟨k, rest, hk, hcalls, hall (fun j _ => ⟨_, rfl⟩)⟩

/-- Counterexample to C9: `quasiStatic` fails at stage 1 of the benchmark
(`N = 100`), and the run ends there with the exception in flight: stage 2 and
the later stages are not initialised, no solver is constructed and nothing is
solved. -/
theorem quasiStatic_failure_is_fatal :
    failingEnv.quasiStatic 1 (VectorXd.Zero failingEnv.nu) failingEnv.x0
      = Except.error { what := "ConvergenceFailure" } ∧
    (main failingEnv none).calls
      = [problemCall failingEnv 100,
         Call.quasiStatic 0 0 0 [0, 0] [1, 0, 0, 0],
         Call.quasiStatic 1 1 1 [0, 0] [1, 0, 0, 0]] ∧
    (main failingEnv none).thrown = some { what := "ConvergenceFailure" } ∧
    Call.SolverFDDP ∉ (main failingEnv none).calls := by
  refine ⟨rfl, rfl, rfl, ?_⟩
  have h : (main failingEnv none).calls
      = [problemCall failingEnv 100,
         Call.quasiStatic 0 0 0 [0, 0] [1, 0, 0, 0],
         Call.quasiStatic 1 1 1 [0, 0] [1, 0, 0, 0]] := rfl
  rw [h]
  simp [problemCall]

/-- C9, amended: a `quasiStatic` failure is fatal for the benchmark.  If the
`quasiStatic` calls of stages `0 .. i-1` return and the call of stage `i`
throws, then the calls of the run are exactly the construction of the problem
and the `quasiStatic` calls of stages `0 .. i`, and the run ends with that
exception in flight: no later stage is initialised, no solver is constructed
and `solve`, `calc` and `calcDiff` are not called. -/
theorem quasiStatic_failure_aborts (env : Collaborators) (N T MAXITER i : Nat)
    (e : Exception) (hi : i < N)
    (hok : ∀ j, j < i → ∃ u, env.quasiStatic j (VectorXd.Zero env.nu) env.x0 = Except.ok u)
    (herr : env.quasiStatic i (VectorXd.Zero env.nu) env.x0 = Except.error e) :
    (mainBody env N T MAXITER).calls
      = problemCall env N ::
          (List.range (i + 1)).map
            (fun j => Call.quasiStatic j j j (VectorXd.Zero env.nu) env.x0) ∧
    (mainBody env N T MAXITER).thrown = some e := by
  obtain ⟨_, _, hcase⟩ := mainBody_shape env N T MAXITER
  rcases hcase with ⟨hall, _⟩ | ⟨m, e1, hm, hsome, hcalls, hok1, herr1⟩
  · obtain ⟨u, hu⟩ := hall i hi
    rw [herr] at hu
    cases hu
  · have hmi : m = i := by
      rcases Nat.lt_trichotomy m i with h | h | h
      · obtain ⟨u, hu⟩ := hok m h
        rw [herr1] at hu
        cases hu
      · exact h
      · obtain ⟨u, hu⟩ := hok1 i h
        rw [herr] at hu
        cases hu
    subst hmi
    rw [herr] at herr1
    cases herr1
    exact ⟨hcalls, hsome⟩

/-- Witness for the amended C9: `quasiStatic` fails at stage 1 of the
benchmark. -/
theorem quasiStatic_failure_aborts_witness :
    (main failingEnv none).calls
      = problemCall failingEnv 100 ::
          (List.range 2).map
            (fun j => Call.quasiStatic j j j (VectorXd.Zero failingEnv.nu) failingEnv.x0) ∧
    (main failingEnv none).thrown = some { what := "ConvergenceFailure" } :=
  quasiStatic_failure_aborts failingEnv 100 5000 1 1 { what := "ConvergenceFailure" }
    (by decide)
    (fun j hj => ⟨VectorXd.Zero failingEnv.nu, by
      have : j = 0 := by omega
      subst this
      rfl⟩)
    rfl

/-! ## The timed calls of the benchmark (C10) -/

theorem count_timedCalls (env : Collaborators) (N MAXITER k1 k2 k3 : Nat)
    (xs us : List VectorXd) :
    List.count (Call.solve xs us MAXITER false (1 / 10))
        (problemCall env N :: (qsCalls env N ++ Call.SolverFDDP ::
          timedCalls xs us MAXITER k1 k2 k3)) = k1 ∧
    List.count (Call.calc xs us)
        (problemCall env N :: (qsCalls env N ++ Call.SolverFDDP ::
          timedCalls xs us MAXITER k1 k2 k3)) = k2 ∧
    List.count (Call.calcDiff xs us)
        (problemCall env N :: (qsCalls env N ++ Call.SolverFDDP ::
          timedCalls xs us MAXITER k1 k2 k3)) = k3 := by
  have h1 := count_qsCalls_eq_zero env N (Call.solve xs us MAXITER false (1 / 10))
    (by intro j; simp)
  have h2 := count_qsCalls_eq_zero env N (Call.calc xs us) (by intro j; simp)
  have h3 := count_qsCalls_eq_zero env N (Call.calcDiff xs us) (by intro j; simp)
  simp only [one_div] at h1
  refine ⟨?_, ?_, ?_⟩ <;>
    simp [List.count_cons, List.count_append, List.count_replicate, timedCalls,
      problemCall, h1, h2, h3]

/-- The timed calls of a run of `mainBody`: every `solve`, `calc` and
`calcDiff` call is on the final `xs`, `us`, and a run that ends without an
exception made `T` calls of each. -/
theorem mainBody_timed (env : Collaborators) (N T MAXITER : Nat) :
    (∀ c xs us m f reg, c ∈ (mainBody env N T MAXITER).calls →
      c = Call.solve xs us m f reg →
      xs = (mainBody env N T MAXITER).xs ∧ us = (mainBody env N T MAXITER).us ∧
        m = MAXITER ∧ f = false ∧ reg = 1 / 10) ∧
    (∀ c xs us, c ∈ (mainBody env N T MAXITER).calls →
      (c = Call.calc xs us ∨ c = Call.calcDiff xs us) →
      xs = (mainBody env N T MAXITER).xs ∧ us = (mainBody env N T MAXITER).us) ∧
    ((mainBody env N T MAXITER).thrown = none →
      List.count (Call.solve (mainBody env N T MAXITER).xs (mainBody env N T MAXITER).us
          MAXITER false (1 / 10)) (mainBody env N T MAXITER).calls = T ∧
      List.count (Call.calc (mainBody env N T MAXITER).xs (mainBody env N T MAXITER).us)
          (mainBody env N T MAXITER).calls = T ∧
      List.count (Call.calcDiff (mainBody env N T MAXITER).xs (mainBody env N T MAXITER).us)
          (mainBody env N T MAXITER).calls = T) := by
  obtain ⟨hxs, hlen, hcase⟩ := mainBody_shape env N T MAXITER
  refine ⟨?_, ?_, ?_⟩
  · intro c xs us m f reg hc heq
    subst heq
    rcases mainBody_calls_mem env N T MAXITER _ hc with h | ⟨j, _, h⟩ | h | h | h | h
    · simp [problemCall] at h
    · simp at h
    · simp at h
    · simp only [Call.solve.injEq] at h
      exact h
    · simp at h
    · simp at h
  · intro c xs us hc heq
    rcases heq with heq | heq <;> subst heq <;>
      rcases mainBody_calls_mem env N T MAXITER _ hc with h | ⟨j, _, h⟩ | h | h | h | h <;>
      simp [problemCall] at h <;> exact h
  · intro hnone
    rcases hcase with ⟨_, k1, k2, k3, _, _, _, hcalls, _, _, hk, _⟩ | ⟨m, e, _, hsome, _⟩
    · obtain ⟨e1, e2, e3⟩ := hk hnone
      rw [← hxs, e1, e2, e3] at hcalls
      generalize (mainBody env N T MAXITER).xs = X at hcalls ⊢
      generalize (mainBody env N T MAXITER).us = U at hcalls ⊢
      rw [hcalls]
      exact count_timedCalls env N MAXITER T T T X U
    · rw [hsome] at hnone
      cases hnone

/-- C10: in every run of `main`, every call of `solve` is
`solve(xs, us, 1, false, 0.1)`, with the arguments in the order of the solve
entry point (initial states, initial controls, maximum number of iterations,
feasibility flag, initial regularization), on the one `xs`, `us` that `main`
holds (`solve` takes them by constant reference, so no trial starts from the
result of the one before); the `calc` and `calcDiff` calls are given the same
`xs`, `us`; and a run that ends without an exception made exactly `T` calls of
each of the three. -/
theorem timed_trials_same_guess (env : Collaborators) (a : Option Int) :
    (∀ c xs us m f reg, c ∈ (main env a).calls → c = Call.solve xs us m f reg →
      xs = (main env a).xs ∧ us = (main env a).us ∧ m = 1 ∧ f = false ∧ reg = 1 / 10) ∧
    (∀ c xs us, c ∈ (main env a).calls → (c = Call.calc xs us ∨ c = Call.calcDiff xs us) →
      xs = (main env a).xs ∧ us = (main env a).us) ∧
    (main env a).xs = List.replicate 101 env.x0 ∧
    (main env a).us.length = 100 ∧
    ((main env a).thrown = none →
      List.count (Call.solve (main env a).xs (main env a).us 1 false (1 / 10))
          (main env a).calls = trials a ∧
      List.count (Call.calc (main env a).xs (main env a).us) (main env a).calls
        = trials a ∧
      List.count (Call.calcDiff (main env a).xs (main env a).us) (main env a).calls
        = trials a) := by
  obtain ⟨h1, h2, h3⟩ := mainBody_timed env 100 (trials a) 1
  obtain ⟨hxs, hlen, _⟩ := mainBody_shape env 100 (trials a) 1
  exact ⟨h1, h2, hxs, hlen, h3⟩

/-- Witness for C10: a run of `main` with two trials and collaborators that
return ends without an exception, after two calls of `solve`. -/
theorem timed_trials_same_guess_witness :
    (main exampleEnv (some 2)).thrown = none ∧
    trials (some 2) = 2 ∧
    List.count (Call.solve (main exampleEnv (some 2)).xs (main exampleEnv (some 2)).us
        1 false (1 / 10)) (main exampleEnv (some 2)).calls = trials (some 2) :=
  ⟨rfl, rfl, ((timed_trials_same_guess exampleEnv (some 2)).2.2.2.2 rfl).1⟩

/-! ## `ShootingProblem::calc` (C2, C4) -/

/-- C2: for every shooting problem with `N` running stages and every controls
sequence of length `N - 1` or `N + 1`, `calc(xs, us)` fails with
`DimensionMismatch` and leaves the problem, hence every stage data record and
the terminal data record, exactly as it was. -/
theorem calc_dimension_mismatch (p : ShootingProblem) (xs us : List VectorXd)
    (h : us.length + 1 = p.runningModels.length ∨
      us.length = p.runningModels.length + 1) :
    (ShootingProblem.calc p xs us).1 = Except.error SolverError.DimensionMismatch ∧
    (ShootingProblem.calc p xs us).2 = p ∧
    (ShootingProblem.calc p xs us).2.runningDatas = p.runningDatas ∧
    (ShootingProblem.calc p xs us).2.terminalData = p.terminalData := by
  have hne : us.length ≠ p.runningModels.length := by omega
  unfold ShootingProblem.calc
  by_cases hx : xs.length = p.runningModels.length + 1
  · simp [hx, hne]
  · simp [hx]

/-- Witness for C2: the example problem has two running stages; one control
is one too few. -/
theorem calc_dimension_mismatch_witness :
    (ShootingProblem.calc exampleProblem [[1, 2], [1, 2], [1, 2]] [[0]]).1
      = Except.error SolverError.DimensionMismatch ∧
    (ShootingProblem.calc exampleProblem [[1, 2], [1, 2], [1, 2]] [[0]]).2.runningDatas
      = exampleProblem.runningDatas :=
  ⟨(calc_dimension_mismatch exampleProblem [[1, 2], [1, 2], [1, 2]] [[0]]
      (Or.inl rfl)).1,
   (calc_dimension_mismatch exampleProblem [[1, 2], [1, 2], [1, 2]] [[0]]
      (Or.inl rfl)).2.2.1⟩

theorem controlDimsOk_of_forall :
    ∀ (ms : List ActionModel) (us : List VectorXd),
      (∀ (t : Nat) (m : ActionModel) (u : VectorXd),
        ms[t]? = some m → us[t]? = some u → u.length = m.nu) →
      controlDimsOk ms us = true := by
  intro ms
  induction ms with
  | nil => intro us _; cases us <;> rfl
  | cons m ms ih =>
    intro us h
    cases us with
    | nil => rfl
    | cons u us =>
      have h0 : u.length = m.nu := h 0 m u (by simp) (by simp)
      have ht : ∀ (t : Nat) (m1 : ActionModel) (u1 : VectorXd),
          ms[t]? = some m1 → us[t]? = some u1 → u1.length = m1.nu := by
        intro t m1 u1 h1 h2
        exact h (t + 1) m1 u1 (by simpa using h1) (by simpa using h2)
      simp [controlDimsOk, h0, ih us ht]

/-- The stage loop of `calc`: the accumulated cost and the data records it
writes. -/
theorem calcStages_spec :
    ∀ (ms : List ActionModel) (ds : List ActionData) (xs us : List VectorXd) (acc : ℚ),
      ds.length = ms.length → us.length = ms.length → ms.length ≤ xs.length →
      (calcStages ms ds xs us acc).2 = acc + (stageCosts ms xs us).sum ∧
      (calcStages ms ds xs us acc).1.length = ms.length ∧
      ((calcStages ms ds xs us acc).1.map (fun d => d.cost)) = stageCosts ms xs us ∧
      ∀ (t : Nat) (m : ActionModel) (d : ActionData) (x u : VectorXd),
        ms[t]? = some m → ds[t]? = some d → xs[t]? = some x → us[t]? = some u →
        (calcStages ms ds xs us acc).1[t]? = some (m.calc d x (some u)) := by
  intro ms
  induction ms with
  | nil =>
    intro ds xs us acc _ _ _
    refine ⟨by simp [calcStages, stageCosts], by simp [calcStages],
      by simp [calcStages, stageCosts], ?_⟩
    intro t m d x u h
    simp at h
  | cons m ms ih =>
    intro ds xs us acc hd hu hx
    cases ds with
    | nil => simp at hd
    | cons d ds =>
      cases us with
      | nil => simp at hu
      | cons u us =>
        cases xs with
        | nil => simp at hx
        | cons x xs =>
          have e : (m.calc d x (some u)).cost = m.cost x (some u) := rfl
          obtain ⟨h1, h2, h3, h4⟩ := ih ds xs us (acc + m.cost x (some u))
            (by simpa using hd) (by simpa using hu) (by simpa using hx)
          have hs : stageCosts (m :: ms) (x :: xs) (u :: us)
              = m.cost x (some u) :: stageCosts ms xs us := by
            simp [stageCosts]
          have hc : calcStages (m :: ms) (d :: ds) (x :: xs) (u :: us) acc
              = (m.calc d x (some u) :: (calcStages ms ds xs us (acc + m.cost x (some u))).1,
                  (calcStages ms ds xs us (acc + m.cost x (some u))).2) := by
            simp [calcStages, e]
          rw [hc, hs]
          refine ⟨?_, ?_, ?_, ?_⟩
          · simp only [h1, List.sum_cons]
            ring
          · simp [h2]
          · simp [h3, e]
          · intro t m1 d1 x1 u1 hm hd1 hx1 hu1
            cases t with
            | zero =>
              simp at hm hd1 hx1 hu1
              subst hm; subst hd1; subst hx1; subst hu1
              simp
            | succ t =>
              simp at hm hd1 hx1 hu1
              simpa using h4 t m1 d1 x1 u1 hm hd1 hx1 hu1

/-- C4: for every trajectory that satisfies the preconditions of `calc`
(`N + 1` states, `N` controls, each control of its stage's dimension),
`calc` succeeds; it evaluates stage `t` on `(xs[t], us[t])` for every `t` in
`0 .. N-1`, writing the result into that stage's data record, and the terminal
model on `xs[N]`; and the total cost it returns is the sum of the `N` stage
costs plus the terminal cost. -/
theorem calc_total_cost (p : ShootingProblem) (xs us : List VectorXd)
    (hp : p.runningDatas.length = p.runningModels.length)
    (hxs : xs.length = p.runningModels.length + 1)
    (hus : us.length = p.runningModels.length)
    (hdim : ∀ (t : Nat) (m : ActionModel) (u : VectorXd),
      p.runningModels[t]? = some m → us[t]? = some u → u.length = m.nu) :
    (ShootingProblem.calc p xs us).1
      = Except.ok ((stageCosts p.runningModels xs us).sum
          + p.terminalModel.cost (xs.getD p.runningModels.length []) none) ∧
    (stageCosts p.runningModels xs us).length = p.runningModels.length ∧
    (∀ (t : Nat) (m : ActionModel) (d : ActionData) (x u : VectorXd),
      p.runningModels[t]? = some m → p.runningDatas[t]? = some d →
      xs[t]? = some x → us[t]? = some u →
      (ShootingProblem.calc p xs us).2.runningDatas[t]? = some (m.calc d x (some u))) ∧
    (ShootingProblem.calc p xs us).2.runningDatas.length = p.runningModels.length ∧
    (ShootingProblem.calc p xs us).2.terminalData
      = p.terminalModel.calc p.terminalData (xs.getD p.runningModels.length []) none ∧
    (ShootingProblem.calc p xs us).1
      = Except.ok ((((ShootingProblem.calc p xs us).2.runningDatas.map
            (fun d => d.cost)).sum)
          + (ShootingProblem.calc p xs us).2.terminalData.cost) := by
  have hok := controlDimsOk_of_forall p.runningModels us hdim
  obtain ⟨h1, h2, h3, h4⟩ := calcStages_spec p.runningModels p.runningDatas xs us 0
    hp hus (by omega)
  have hcalc : ShootingProblem.calc p xs us
      = (Except.ok ((calcStages p.runningModels p.runningDatas xs us 0).2
            + (p.terminalModel.calc p.terminalData
                (xs.getD p.runningModels.length []) none).cost),
          { p with
            runningDatas := (calcStages p.runningModels p.runningDatas xs us 0).1
            terminalData := p.terminalModel.calc p.terminalData
                (xs.getD p.runningModels.length []) none }) := by
    simp [ShootingProblem.calc, hxs, hus, hok]
  rw [hcalc]
  refine ⟨?_, ?_, h4, h2, rfl, ?_⟩
  · simp [h1, ActionModel.calc]
  · simp [stageCosts, hxs, hus]
  · simp [h1, h3]

/-- Witness for C4: the example problem on a trajectory of three states and
two controls. -/
theorem calc_total_cost_witness :
    (ShootingProblem.calc exampleProblem [[1, 2], [1, 2], [1, 2]] [[0], [1]]).1
      = Except.ok ((stageCosts exampleProblem.runningModels
            [[1, 2], [1, 2], [1, 2]] [[0], [1]]).sum
          + exampleProblem.terminalModel.cost
              (([[1, 2], [1, 2], [1, 2]] : List VectorXd).getD
                exampleProblem.runningModels.length []) none) :=
  (calc_total_cost exampleProblem [[1, 2], [1, 2], [1, 2]] [[0], [1]] rfl rfl rfl
    (by
      intro t m u h1 h2
      rcases t with _ | _ | t
      · simp [exampleProblem, ShootingProblem.create] at h1 h2
        subst h1; subst h2; rfl
      · simp [exampleProblem, ShootingProblem.create] at h1 h2
        subst h1; subst h2; rfl
      · simp [exampleProblem, ShootingProblem.create] at h1)).1

/-! ## Regularization bounds (C5) -/

theorem increaseRegularization_inBounds (c : SolverParams) (r : Regularization)
    (hmin : 0 ≤ c.reg_min) (hle : c.reg_min ≤ c.reg_max) (hinc : 1 ≤ c.reg_incfactor)
    (h : r.InBounds c) : (increaseRegularization c r).InBounds c := by
  obtain ⟨h1, h2, h3, h4⟩ := h
  have hx : r.xreg ≤ r.xreg * c.reg_incfactor :=
    le_mul_of_one_le_right (le_trans hmin h1) hinc
  have hu : r.ureg ≤ r.ureg * c.reg_incfactor :=
    le_mul_of_one_le_right (le_trans hmin h3) hinc
  refine ⟨?_, ?_, ?_, ?_⟩
  · exact le_min (le_trans h1 hx) hle
  · exact min_le_right _ _
  · exact le_min (le_trans h3 hu) hle
  · exact min_le_right _ _

theorem decreaseRegularization_inBounds (c : SolverParams) (r : Regularization)
    (hmin : 0 ≤ c.reg_min) (hle : c.reg_min ≤ c.reg_max) (hdec : 1 ≤ c.reg_decfactor)
    (h : r.InBounds c) : (decreaseRegularization c r).InBounds c := by
  obtain ⟨h1, h2, h3, h4⟩ := h
  have hx : r.xreg / c.reg_decfactor ≤ r.xreg :=
    div_le_self (le_trans hmin h1) hdec
  have hu : r.ureg / c.reg_decfactor ≤ r.ureg :=
    div_le_self (le_trans hmin h3) hdec
  refine ⟨?_, ?_, ?_, ?_⟩
  · exact le_max_right _ _
  · exact max_le (le_trans hx h2) hle
  · exact le_max_right _ _
  · exact max_le (le_trans hu h4) hle

/-- C5: from a regularization pair within the configured bounds, and for
bounds `0 ≤ reg_min ≤ reg_max` and factors at least 1, both regularization
scalars stay at or above the configured minimum and at or below the configured
maximum after every sequence of accepted steps, rejected steps and
backward-pass retries. -/
theorem regularization_bounds (c : SolverParams) (r : Regularization)
    (events : List RegEvent)
    (hmin : 0 ≤ c.reg_min) (hle : c.reg_min ≤ c.reg_max)
    (hinc : 1 ≤ c.reg_incfactor) (hdec : 1 ≤ c.reg_decfactor)
    (h : r.InBounds c) :
    c.reg_min ≤ (regularizationAfter c r events).xreg ∧
    (regularizationAfter c r events).xreg ≤ c.reg_max ∧
    c.reg_min ≤ (regularizationAfter c r events).ureg ∧
    (regularizationAfter c r events).ureg ≤ c.reg_max := by
  have key : ∀ (events : List RegEvent) (r : Regularization), r.InBounds c →
      (regularizationAfter c r events).InBounds c := by
    intro events
    induction events with
    | nil => intro r h; exact h
    | cons ev events ih =>
      intro r h
      have hstep : (updateRegularization c r ev).InBounds c := by
        cases ev
        · exact decreaseRegularization_inBounds c r hmin hle hdec h
        · exact increaseRegularization_inBounds c r hmin hle hinc h
        · exact increaseRegularization_inBounds c r hmin hle hinc h
      exact ih _ hstep
  exact key events r h

/-- Witness for C5: from the initial regularization `0.1` of the benchmark,
through a rejection, a backward-pass retry and two accepted steps. -/
theorem regularization_bounds_witness :
    exampleParams.reg_min
      ≤ (regularizationAfter exampleParams { xreg := 1 / 10, ureg := 1 / 10 }
          [RegEvent.rejected, RegEvent.backwardPassRetry, RegEvent.accepted,
            RegEvent.accepted]).xreg ∧
    (regularizationAfter exampleParams { xreg := 1 / 10, ureg := 1 / 10 }
        [RegEvent.rejected, RegEvent.backwardPassRetry, RegEvent.accepted,
          RegEvent.accepted]).xreg ≤ exampleParams.reg_max :=
  ⟨(regularization_bounds exampleParams { xreg := 1 / 10, ureg := 1 / 10 }
      [RegEvent.rejected, RegEvent.backwardPassRetry, RegEvent.accepted, RegEvent.accepted]
      (by norm_num [exampleParams]) (by norm_num [exampleParams])
      (by norm_num [exampleParams]) (by norm_num [exampleParams])
      (by norm_num [Regularization.InBounds, exampleParams])).1,
   (regularization_bounds exampleParams { xreg := 1 / 10, ureg := 1 / 10 }
      [RegEvent.rejected, RegEvent.backwardPassRetry, RegEvent.accepted, RegEvent.accepted]
      (by norm_num [exampleParams]) (by norm_num [exampleParams])
      (by norm_num [exampleParams]) (by norm_num [exampleParams])
      (by norm_num [Regularization.InBounds, exampleParams])).2.1⟩

/-! ## Monotonicity of the cost (C6) -/

theorem lineSearch_some (c : SolverParams) (prevCost d1 d2 : ℚ) (tryStep : ℚ → ℚ) :
    ∀ (alphas : List ℚ) (alpha : ℚ),
      lineSearch c prevCost d1 d2 tryStep alphas = some alpha →
      alpha ∈ alphas ∧
      acceptStep c (prevCost - tryStep alpha) (expectedReduction d1 d2 alpha) = true := by
  intro alphas
  induction alphas with
  | nil => intro alpha h; simp [lineSearch] at h
  | cons a alphas ih =>
    intro alpha h
    by_cases hacc : acceptStep c (prevCost - tryStep a) (expectedReduction d1 d2 a) = true
    · simp only [lineSearch, hacc, if_true, Option.some.injEq] at h
      subst h
      exact ⟨List.mem_cons_self _ _, hacc⟩
    · simp only [lineSearch, hacc] at h
      obtain ⟨h1, h2⟩ := ih alpha (by simpa using h)
      exact ⟨List.mem_cons_of_mem _ h1, h2⟩

/-- An accepted step with a non-negative expected reduction has a positive
actual reduction. -/
theorem acceptStep_pos (c : SolverParams) (actual expected : ℚ)
    (hth : 0 ≤ c.th_acceptstep) (hexp : 0 ≤ expected)
    (h : acceptStep c actual expected = true) : 0 < actual := by
  simp only [acceptStep, Bool.or_eq_true, Bool.and_eq_true, decide_eq_true_eq] at h
  rcases h with h | ⟨_, h⟩
  · have hpos : 0 < actual / expected := lt_of_le_of_lt hth h
    rcases eq_or_lt_of_le hexp with h0 | h0
    · rw [← h0] at hpos; simp at hpos
    · have := mul_pos hpos h0
      rwa [div_mul_cancel₀ _ (ne_of_gt h0)] at this
  · exact h

/-- Counterexample to C6: with acceptance threshold `0.1`, previous cost 0,
coefficients `d1 = -1`, `d2 = 0` and a candidate of cost 1 for step size 1,
the ratio of actual to expected reduction is `(-1) / (-1) = 1`, the step is
accepted, and the total cost goes up from 0 to 1. -/
theorem accepted_step_increases_cost :
    lineSearch exampleParams 0 (-1) 0 (fun _ => 1) [1] = some 1 ∧
    (iteration exampleParams (-1) 0 (fun _ => 1) [1]
        { cost := 0, reg := { xreg := 1 / 10, ureg := 1 / 10 }, accepted := 0 }).accepted = 1 ∧
    (iteration exampleParams (-1) 0 (fun _ => 1) [1]
        { cost := 0, reg := { xreg := 1 / 10, ureg := 1 / 10 }, accepted := 0 }).cost = 1 ∧
    ¬ (iteration exampleParams (-1) 0 (fun _ => 1) [1]
        { cost := 0, reg := { xreg := 1 / 10, ureg := 1 / 10 }, accepted := 0 }).cost ≤ 0 := by
  have h : lineSearch exampleParams 0 (-1) 0 (fun _ => 1) [1] = some 1 := by
    simp [lineSearch, acceptStep, expectedReduction, exampleParams]
    norm_num
  refine ⟨h, ?_, ?_, ?_⟩ <;> simp [iteration, h]

/-- C6, amended: an accepted iteration whose expected reduction is
non-negative strictly decreases the total cost (the acceptance threshold being
non-negative); in particular the total cost strictly decreases in every
accepted iteration whose expected improvement exceeds the (non-negative)
configured tolerance. -/
theorem accepted_step_decreases_cost (c : SolverParams) (d1 d2 : ℚ) (tryStep : ℚ → ℚ)
    (alphas : List ℚ) (s : SolverState) (alpha : ℚ)
    (hth : 0 ≤ c.th_acceptstep)
    (hacc : lineSearch c s.cost d1 d2 tryStep alphas = some alpha) :
    (iteration c d1 d2 tryStep alphas s).accepted = s.accepted + 1 ∧
    (0 ≤ expectedReduction d1 d2 alpha →
      (iteration c d1 d2 tryStep alphas s).cost < s.cost) ∧
    (0 ≤ c.th_stop → c.th_stop < expectedReduction d1 d2 alpha →
      (iteration c d1 d2 tryStep alphas s).cost < s.cost) := by
  obtain ⟨_, hok⟩ := lineSearch_some c s.cost d1 d2 tryStep alphas alpha hacc
  have hcost : (iteration c d1 d2 tryStep alphas s).cost = tryStep alpha := by
    simp [iteration, hacc]
  have hdec : 0 ≤ expectedReduction d1 d2 alpha →
      (iteration c d1 d2 tryStep alphas s).cost < s.cost := by
    intro hexp
    have := acceptStep_pos c _ _ hth hexp hok
    rw [hcost]
    linarith
  refine ⟨by simp [iteration, hacc], hdec, ?_⟩
  intro h0 h1
  exact hdec (le_of_lt (lt_of_le_of_lt h0 h1))

/-- Witness for the amended C6: a candidate of cost 1 for step size 1, from a
previous cost 2 with an expected reduction of 1, is accepted and decreases the
cost. -/
theorem accepted_step_decreases_cost_witness :
    lineSearch exampleParams 2 1 0 (fun _ => 1) [1] = some 1 ∧
    (iteration exampleParams 1 0 (fun _ => 1) [1]
        { cost := 2, reg := { xreg := 1 / 10, ureg := 1 / 10 }, accepted := 0 }).cost < 2 :=
  have h : lineSearch exampleParams 2 1 0 (fun _ => 1) [1] = some 1 := by
    simp [lineSearch, acceptStep, expectedReduction, exampleParams]
    norm_num
  ⟨h, (accepted_step_decreases_cost exampleParams 1 0 (fun _ => 1) [1]
      { cost := 2, reg := { xreg := 1 / 10, ureg := 1 / 10 }, accepted := 0 } 1
      (by norm_num [exampleParams]) h).2.1
      (by norm_num [expectedReduction])⟩


/-! ## The factory `create` and the supported state types (C12, C13) -/

/-- C12: `DifferentialActionModelFactory::create(type)` throws
'Wrong DifferentialActionModelTypes::Type given' if and only if `type` is not
one of the 20 model types that its switch lists; it throws for the sentinel
`NbDifferentialActionModelTypes`; and for each of the 20 listed types it
returns a model. -/
theorem create_throws_iff_not_listed (env : FactoryEnv)
    (type : DifferentialActionModelTypes) :
    (DifferentialActionModelFactory.create env type
        = Except.error { what := "Wrong DifferentialActionModelTypes::Type given" } ↔
      type ∉ listedTypes) ∧
    ((∃ a, DifferentialActionModelFactory.create env type = Except.ok a) ↔
      type ∈ listedTypes) ∧
    DifferentialActionModelFactory.create env
        DifferentialActionModelTypes.NbDifferentialActionModelTypes
      = Except.error { what := "Wrong DifferentialActionModelTypes::Type given" } ∧
    listedTypes.length = 20 ∧ listedTypes.Nodup := by
  refine ⟨?_, ?_, rfl, rfl, by decide⟩
  · cases type <;>
      simp [DifferentialActionModelFactory.create, listedTypes, create_freeFwdDynamics,
        create_freeInvDynamics, create_contactFwdDynamics, create_contactInvDynamics,
        contactFwdSwitch, contactInvSwitch]
  · cases type <;>
      simp [DifferentialActionModelFactory.create, listedTypes, create_freeFwdDynamics,
        create_freeInvDynamics, create_contactFwdDynamics, create_contactInvDynamics,
        contactFwdSwitch, contactInvSwitch]


/-- C13: `create_contactFwdDynamics` builds a model exactly for the state types
TalosArm, Contact2D_TalosArm, HyQ and Talos, and `create_contactInvDynamics`
exactly for TalosArm, HyQ and Talos; for every other state type each throws
'Wrong StateModelTypes::Type given' and returns no model.  So
`create_contactInvDynamics` rejects `StateMultibodyContact2D_TalosArm`, which
`create_contactFwdDynamics` accepts. -/
theorem contact_creators_supported_states (env : FactoryEnv)
    (state_type : StateModelTypes) (actuation_type : ActuationModelTypes)
    (with_friction : Bool) :
    ((∃ a, create_contactFwdDynamics env state_type actuation_type with_friction
          = Except.ok a) ↔
      state_type ∈ [StateModelTypes.StateMultibody_TalosArm,
        StateModelTypes.StateMultibodyContact2D_TalosArm,
        StateModelTypes.StateMultibody_HyQ, StateModelTypes.StateMultibody_Talos]) ∧
    (create_contactFwdDynamics env state_type actuation_type with_friction
        = Except.error { what := "Wrong StateModelTypes::Type given" } ↔
      state_type ∉ [StateModelTypes.StateMultibody_TalosArm,
        StateModelTypes.StateMultibodyContact2D_TalosArm,
        StateModelTypes.StateMultibody_HyQ, StateModelTypes.StateMultibody_Talos]) ∧
    ((∃ a, create_contactInvDynamics env state_type actuation_type with_friction
          = Except.ok a) ↔
      state_type ∈ [StateModelTypes.StateMultibody_TalosArm,
        StateModelTypes.StateMultibody_HyQ, StateModelTypes.StateMultibody_Talos]) ∧
    (create_contactInvDynamics env state_type actuation_type with_friction
        = Except.error { what := "Wrong StateModelTypes::Type given" } ↔
      state_type ∉ [StateModelTypes.StateMultibody_TalosArm,
        StateModelTypes.StateMultibody_HyQ, StateModelTypes.StateMultibody_Talos]) ∧
    create_contactInvDynamics env StateModelTypes.StateMultibodyContact2D_TalosArm
        actuation_type with_friction
      = Except.error { what := "Wrong StateModelTypes::Type given" } ∧
    (∃ a, create_contactFwdDynamics env StateModelTypes.StateMultibodyContact2D_TalosArm
        actuation_type with_friction = Except.ok a) := by
  refine ⟨?_, ?_, ?_, ?_, rfl, ⟨_, rfl⟩⟩ <;>
    cases state_type <;>
    simp [create_contactFwdDynamics, create_contactInvDynamics, contactFwdSwitch,
      contactInvSwitch]


/-! ## Control dimensions in the factory (C14, C15) -/

/-- C14: in `create_contactInvDynamics`, for every supported state type the
control dimension (of the contact container and of the cost container) is
`nv + actuation nu + nc`, where `nc`, the constant added to `nu`, is the sum of
the dimensions of the contacts registered for that state type: 3 for TalosArm
(one `ContactModel3D`), 12 for HyQ (four `ContactModel3D`) and 12 for Talos
(two `ContactModel6D`). -/
theorem contactInv_control_dimension (env : FactoryEnv) (state_type : StateModelTypes)
    (actuation_type : ActuationModelTypes) (with_friction : Bool)
    (h : state_type ∈ [StateModelTypes.StateMultibody_TalosArm,
      StateModelTypes.StateMultibody_HyQ, StateModelTypes.StateMultibody_Talos]) :
    ∃ contact cost,
      create_contactInvDynamics env state_type actuation_type with_friction
        = Except.ok (DifferentialActionModel.ContactInvDynamics state_type actuation_type
            contact cost) ∧
      contact.nu = env.get_nv state_type + env.get_nu actuation_type state_type
        + contact.nc ∧
      cost.nu = env.get_nv state_type + env.get_nu actuation_type state_type
        + contact.nc ∧
      (state_type = StateModelTypes.StateMultibody_TalosArm →
        contact.nc = 3 ∧
        contact.contacts.map (fun i => i.contact.type) = [ContactModelTypes.ContactModel3D]) ∧
      (state_type = StateModelTypes.StateMultibody_HyQ →
        contact.nc = 12 ∧
        contact.contacts.map (fun i => i.contact.type)
          = List.replicate 4 ContactModelTypes.ContactModel3D) ∧
      (state_type = StateModelTypes.StateMultibody_Talos →
        contact.nc = 12 ∧
        contact.contacts.map (fun i => i.contact.type)
          = List.replicate 2 ContactModelTypes.ContactModel6D) := by
  simp only [List.mem_cons, List.mem_singleton, List.not_mem_nil, or_false] at h
  rcases h with h | h | h <;> subst h <;> cases with_friction <;>
    exact ⟨_, _, rfl, by
      simp [ContactModelMultiple.nc, ContactModelMultiple.addContact,
        CostModelSum.addCost, ContactModelTypes.nc]⟩

/-- Witness for C14: the HyQ model with friction, for 18 velocities and 12
actuated joints, has control dimension `18 + 12 + 12`. -/
theorem contactInv_control_dimension_witness :
    ∃ contact cost,
      create_contactInvDynamics exampleFactoryEnv StateModelTypes.StateMultibody_HyQ
          ActuationModelTypes.ActuationModelFloatingBase true
        = Except.ok (DifferentialActionModel.ContactInvDynamics
            StateModelTypes.StateMultibody_HyQ
            ActuationModelTypes.ActuationModelFloatingBase contact cost) ∧
      contact.nu = 18 + 12 + 12 ∧ cost.nu = 18 + 12 + 12 ∧ contact.nc = 12 := by
  obtain ⟨contact, cost, h1, h2, h3, _, h5, _⟩ :=
    contactInv_control_dimension exampleFactoryEnv StateModelTypes.StateMultibody_HyQ
      ActuationModelTypes.ActuationModelFloatingBase true (by decide)
  have hnc := (h5 rfl).1
  refine ⟨contact, cost, h1, ?_, ?_, hnc⟩
  · rw [h2, hnc]; rfl
  · rw [h3, hnc]; rfl


/-- C15: a stage has one control dimension.  In `create_freeInvDynamics`,
`create_contactFwdDynamics` and `create_contactInvDynamics`, for every state
type, actuation type and friction flag, every cost (hence every residual),
constraint and contact of the model returned is made with exactly the control
dimension of the container it is added to: `nv + actuation nu` in
`create_freeInvDynamics`, `actuation nu` in `create_contactFwdDynamics`, and
in `create_contactInvDynamics` the final `nu`, `nv + actuation nu` plus the
dimension of the contacts. -/
theorem created_with_container_dimension (env : FactoryEnv)
    (state_type : StateModelTypes) (actuation_type : ActuationModelTypes)
    (with_friction : Bool) :
    (∃ a, create_freeInvDynamics env state_type actuation_type = Except.ok a ∧
      a.nuConsistent = true ∧
      a.cost.map (fun c => c.nu)
        = some (env.get_nv state_type + env.get_nu actuation_type state_type) ∧
      a.constraint.map (fun c => c.nu)
        = some (env.get_nv state_type + env.get_nu actuation_type state_type)) ∧
    (∀ a, create_contactFwdDynamics env state_type actuation_type with_friction
        = Except.ok a →
      a.nuConsistent = true ∧
      a.cost.map (fun c => c.nu) = some (env.get_nu actuation_type state_type) ∧
      a.contact.map (fun c => c.nu) = some (env.get_nu actuation_type state_type)) ∧
    (∀ a, create_contactInvDynamics env state_type actuation_type with_friction
        = Except.ok a →
      a.nuConsistent = true ∧
      a.cost.map (fun c => c.nu)
        = a.contact.map (fun c =>
            env.get_nv state_type + env.get_nu actuation_type state_type + c.nc) ∧
      a.contact.map (fun c => c.nu)
        = a.contact.map (fun c =>
            env.get_nv state_type + env.get_nu actuation_type state_type + c.nc)) := by
  refine ⟨⟨_, rfl, ?_, rfl, rfl⟩, ?_, ?_⟩
  · simp [DifferentialActionModel.nuConsistent, CostModelSum.nuConsistent,
      ConstraintModelManager.nuConsistent, CostModelSum.addCost,
      ConstraintModelManager.addConstraint, CostModel.nu]
  · intro a h
    cases state_type <;> cases with_friction <;>
      simp [create_contactFwdDynamics, contactFwdSwitch] at h <;> subst h <;>
      simp [DifferentialActionModel.nuConsistent, CostModelSum.nuConsistent,
        ContactModelMultiple.nuConsistent, CostModelSum.addCost,
        ContactModelMultiple.addContact, CostModel.nu, ResidualModel.nu,
        DifferentialActionModel.cost, DifferentialActionModel.contact]
  · intro a h
    cases state_type <;> cases with_friction <;>
      simp [create_contactInvDynamics, contactInvSwitch] at h <;> subst h <;>
      simp [DifferentialActionModel.nuConsistent, CostModelSum.nuConsistent,
        ContactModelMultiple.nuConsistent, CostModelSum.addCost,
        ContactModelMultiple.addContact, CostModel.nu, ResidualModel.nu,
        DifferentialActionModel.cost, DifferentialActionModel.contact,
        ContactModelMultiple.nc, ContactModelTypes.nc]

/-- Witness for C15: the Talos model of `create_contactInvDynamics` with
friction, for 18 velocities and 12 actuated joints. -/
theorem created_with_container_dimension_witness :
    ∃ a, create_contactInvDynamics exampleFactoryEnv StateModelTypes.StateMultibody_Talos
        ActuationModelTypes.ActuationModelFloatingBase true = Except.ok a ∧
      a.nuConsistent = true ∧ a.cost.map (fun c => c.nu) = some 42 :=
  ⟨_, rfl,
    ((created_with_container_dimension exampleFactoryEnv
        StateModelTypes.StateMultibody_Talos
        ActuationModelTypes.ActuationModelFloatingBase true).2.2 _ rfl).1, rfl⟩


/-! ## Friction costs and the `fwddyn` flag in the factory (C16, C17) -/

/-- C16: with friction enabled, `create_contactFwdDynamics` and
`create_contactInvDynamics` add, for every contact `c` they register, exactly
one cone cost named `<c>_cone` and exactly one force-regularization cost named
`<c>_forceReg` whose force dimension is the dimension of the contact, and no
other cone or force-regularization cost; the only exception is a 2D contact,
registered only by `create_contactFwdDynamics` for
`StateMultibodyContact2D_TalosArm`, which gets the cone cost and no force
regularization.  With friction disabled none of these costs is added. -/
theorem friction_costs_per_contact (env : FactoryEnv) (state_type : StateModelTypes)
    (actuation_type : ActuationModelTypes) :
    (∀ a, create_contactFwdDynamics env state_type actuation_type true = Except.ok a →
      ∃ contact cost, a.contact = some contact ∧ a.cost = some cost ∧
        frictionCostsOk contact cost = true ∧
        ((∃ c, c ∈ contact.contacts ∧ c.contact.type = ContactModelTypes.ContactModel2D) ↔
          state_type = StateModelTypes.StateMultibodyContact2D_TalosArm)) ∧
    (∀ a, create_contactInvDynamics env state_type actuation_type true = Except.ok a →
      ∃ contact cost, a.contact = some contact ∧ a.cost = some cost ∧
        frictionCostsOk contact cost = true ∧
        ∀ c, c ∈ contact.contacts → c.contact.type ≠ ContactModelTypes.ContactModel2D) ∧
    (∀ a, create_contactFwdDynamics env state_type actuation_type false = Except.ok a →
      ∃ cost, a.cost = some cost ∧ noFrictionCosts cost = true) ∧
    (∀ a, create_contactInvDynamics env state_type actuation_type false = Except.ok a →
      ∃ cost, a.cost = some cost ∧ noFrictionCosts cost = true) := by
  refine ⟨?_, ?_, ?_, ?_⟩
  · intro a h
    cases state_type <;>
      simp [create_contactFwdDynamics, contactFwdSwitch] at h <;> subst h <;>
      refine ⟨_, _, rfl, rfl, ?_, ?_⟩ <;>
      simp [frictionCostsOk, frictionCostsOf, CostModelSum.named, CostModelSum.addCost,
        ContactModelMultiple.addContact, CostModel.isCone, CostModel.forceDim,
        ContactModelTypes.nc]
  · intro a h
    cases state_type <;>
      simp [create_contactInvDynamics, contactInvSwitch] at h <;> subst h <;>
      refine ⟨_, _, rfl, rfl, ?_, ?_⟩ <;>
      simp [frictionCostsOk, frictionCostsOf, CostModelSum.named, CostModelSum.addCost,
        ContactModelMultiple.addContact, CostModel.isCone, CostModel.forceDim,
        ContactModelTypes.nc]
  · intro a h
    cases state_type <;>
      simp [create_contactFwdDynamics, contactFwdSwitch] at h <;> subst h <;>
      refine ⟨_, rfl, ?_⟩ <;>
      simp [noFrictionCosts, CostModelSum.addCost, CostModel.isCone, CostModel.forceDim]
  · intro a h
    cases state_type <;>
      simp [create_contactInvDynamics, contactInvSwitch] at h <;> subst h <;>
      refine ⟨_, rfl, ?_⟩ <;>
      simp [noFrictionCosts, CostModelSum.addCost, CostModel.isCone, CostModel.forceDim]


/-- Witness for C16: the HyQ model of `create_contactFwdDynamics` with
friction has four contacts, four cone costs and four force regularizations of
dimension 3. -/
theorem friction_costs_per_contact_witness :
    ∃ a contact cost,
      create_contactFwdDynamics exampleFactoryEnv StateModelTypes.StateMultibody_HyQ
        ActuationModelTypes.ActuationModelFloatingBase true = Except.ok a ∧
      a.contact = some contact ∧ a.cost = some cost ∧
      contact.contacts.map (fun c => c.name) = ["lf", "rf", "lh", "rh"] ∧
      (cost.costs.filter (fun i => i.cost.isCone)).map (fun i => i.name)
        = ["lf_cone", "rf_cone", "lh_cone", "rh_cone"] ∧
      (cost.costs.filter (fun i => i.cost.forceDim.isSome)).map
          (fun i => (i.name, i.cost.forceDim))
        = [("lf_forceReg", some 3), ("rf_forceReg", some 3), ("lh_forceReg", some 3),
            ("rh_forceReg", some 3)] ∧
      frictionCostsOk contact cost = true := by
  obtain ⟨contact, cost, h1, h2, h3, _⟩ :=
    (friction_costs_per_contact exampleFactoryEnv StateModelTypes.StateMultibody_HyQ
      ActuationModelTypes.ActuationModelFloatingBase).1 _ rfl
  refine ⟨_, contact, cost, rfl, h1, h2, ?_, ?_, ?_, h3⟩
  · cases h1; rfl
  · cases h2; decide
  · cases h2; decide


/-- C17: every contact-dependent residual (friction cone, wrench cone, contact
force) that `create_contactInvDynamics` builds is made with `fwddyn = false`,
and every one that `create_contactFwdDynamics` builds is made without a
`fwddyn` argument, hence, the default being true, as a forward-dynamics
residual. -/
theorem fwddyn_flag_in_contact_creators (env : FactoryEnv)
    (state_type : StateModelTypes) (actuation_type : ActuationModelTypes)
    (with_friction : Bool) :
    (∀ a, create_contactInvDynamics env state_type actuation_type with_friction
        = Except.ok a →
      ∃ cost, a.cost = some cost ∧
        cost.fwddynArgs.length
          = (cost.costs.filter (fun i => i.cost.isCone || i.cost.forceDim.isSome)).length ∧
        ∀ f, f ∈ cost.fwddynArgs → f = some false ∧ f.getD fwddynDefault = false) ∧
    (∀ a, create_contactFwdDynamics env state_type actuation_type with_friction
        = Except.ok a →
      ∃ cost, a.cost = some cost ∧
        cost.fwddynArgs.length
          = (cost.costs.filter (fun i => i.cost.isCone || i.cost.forceDim.isSome)).length ∧
        ∀ f, f ∈ cost.fwddynArgs → f = none ∧ f.getD fwddynDefault = true) := by
  refine ⟨?_, ?_⟩
  · intro a h
    cases state_type <;> cases with_friction <;>
      simp [create_contactInvDynamics, contactInvSwitch] at h <;> subst h <;>
      refine ⟨_, rfl, ?_, ?_⟩ <;>
      simp [CostModelSum.fwddynArgs, CostModelSum.addCost, CostModel.isCone,
        CostModel.forceDim, fwddynDefault]
  · intro a h
    cases state_type <;> cases with_friction <;>
      simp [create_contactFwdDynamics, contactFwdSwitch] at h <;> subst h <;>
      refine ⟨_, rfl, ?_, ?_⟩ <;>
      simp [CostModelSum.fwddynArgs, CostModelSum.addCost, CostModel.isCone,
        CostModel.forceDim, fwddynDefault]

/-- Witness for C17: the eight contact-dependent residuals of the HyQ model
of `create_contactInvDynamics` with friction, and those of
`create_contactFwdDynamics`. -/
theorem fwddyn_flag_in_contact_creators_witness :
    (∃ a cost,
      create_contactInvDynamics exampleFactoryEnv StateModelTypes.StateMultibody_HyQ
        ActuationModelTypes.ActuationModelFloatingBase true = Except.ok a ∧
      a.cost = some cost ∧ cost.fwddynArgs = List.replicate 8 (some false)) ∧
    (∃ a cost,
      create_contactFwdDynamics exampleFactoryEnv StateModelTypes.StateMultibody_HyQ
        ActuationModelTypes.ActuationModelFloatingBase true = Except.ok a ∧
      a.cost = some cost ∧ cost.fwddynArgs = List.replicate 8 none) := by
  obtain ⟨c1, h1, _, _⟩ :=
    (fwddyn_flag_in_contact_creators exampleFactoryEnv StateModelTypes.StateMultibody_HyQ
      ActuationModelTypes.ActuationModelFloatingBase true).1 _ rfl
  obtain ⟨c2, h2, _, _⟩ :=
    (fwddyn_flag_in_contact_creators exampleFactoryEnv StateModelTypes.StateMultibody_HyQ
      ActuationModelTypes.ActuationModelFloatingBase true).2 _ rfl
  refine ⟨⟨_, c1, rfl, h1, ?_⟩, ⟨_, c2, rfl, h2, ?_⟩⟩
  · cases h1; decide
  · cases h2; decide

/-! ## Friction-less models and their `WithFriction` counterparts (C18) -/

/-- C18 on the code: `create` builds every friction-less contact-dynamics model
and its `WithFriction` counterpart from the same state type; it builds them
with the same actuation type for every pair except
`DifferentialActionModelContactInvDynamics_TalosArm`, built with
`ActuationModelFloatingBase`, and
`DifferentialActionModelContactInvDynamicsWithFriction_TalosArm`, built with
`ActuationModelFull`. -/
theorem contactInv_TalosArm_actuation_differs (env : FactoryEnv) :
    createdWith env
        DifferentialActionModelTypes.DifferentialActionModelContactInvDynamics_TalosArm
      = some (StateModelTypes.StateMultibody_TalosArm,
          ActuationModelTypes.ActuationModelFloatingBase) ∧
    createdWith env
        DifferentialActionModelTypes.DifferentialActionModelContactInvDynamicsWithFriction_TalosArm
      = some (StateModelTypes.StateMultibody_TalosArm,
          ActuationModelTypes.ActuationModelFull) ∧
    (∀ p, p ∈ frictionPairs →
      (createdWith env p.1).map (fun r => r.1) = (createdWith env p.2).map (fun r => r.1) ∧
      (createdWith env p.1).isSome = true ∧
      ((createdWith env p.1).map (fun r => r.2) = (createdWith env p.2).map (fun r => r.2) ↔
        p ≠ (DifferentialActionModelTypes.DifferentialActionModelContactInvDynamics_TalosArm,
          DifferentialActionModelTypes.DifferentialActionModelContactInvDynamicsWithFriction_TalosArm))) := by
  refine ⟨rfl, ?_, ?_⟩
  · cases hb : env.with_friction_default <;>
      simp [createdWith, DifferentialActionModelFactory.create, create_contactInvDynamics,
        contactInvSwitch, hb, DifferentialActionModel.state_type,
        DifferentialActionModel.actuation_type]
  · intro p hp
    simp only [frictionPairs, List.mem_cons, List.mem_singleton, List.not_mem_nil,
      or_false] at hp
    rcases hp with h | h | h | h | h | h | h <;> subst h <;>
      cases hb : env.with_friction_default <;>
      simp [createdWith, DifferentialActionModelFactory.create, create_contactInvDynamics,
        create_contactFwdDynamics, contactFwdSwitch, contactInvSwitch, hb,
        DifferentialActionModel.state_type, DifferentialActionModel.actuation_type]

/-! ## The constructors of the Python contact CoP position residual (C11) -/

/-- C11: constructing the Python `ResidualModelContactCoPPosition` with only
`(state, id, cref)` yields a model whose control dimension `nu` is `state.nv`
and which is a forward-dynamics residual; with `(state, id, cref, nu)`, the
argument `fwddyn` left out, `fwddyn` is true (forward dynamics); and with all
five arguments `fwddyn` is the value given. -/
theorem cop_position_constructor_defaults (state : StateMultibody) (id : Nat)
    (cref : CoPSupport) (nu : Nat) (fwddyn : Bool) :
    (∃ r, ResidualModelContactCoPPosition.init
          [PyValue.StateMultibody state, PyValue.int id, PyValue.CoPSupport cref]
        = Except.ok r ∧
      r.nu = state.nv ∧ r.fwddyn = true ∧ r.state = state ∧ r.id = id ∧ r.cref = cref) ∧
    (∃ r, ResidualModelContactCoPPosition.init
          [PyValue.StateMultibody state, PyValue.int id, PyValue.CoPSupport cref,
            PyValue.int nu]
        = Except.ok r ∧
      r.nu = nu ∧ r.fwddyn = true) ∧
    (∃ r, ResidualModelContactCoPPosition.init
          [PyValue.StateMultibody state, PyValue.int id, PyValue.CoPSupport cref,
            PyValue.int nu, PyValue.bool fwddyn]
        = Except.ok r ∧
      r.nu = nu ∧ r.fwddyn = fwddyn) :=
  ⟨⟨_, rfl, rfl, rfl, rfl, rfl, rfl⟩, ⟨_, rfl, rfl, rfl⟩, ⟨_, rfl, rfl, rfl⟩⟩

end Crocoddyl
